import Mathlib

/-!
Shallow embedding of the procurement-analysis core of `satinalma_analiz.py`
(class `SatinalmaAnalizAsistani`).  Python strings are modelled as Lean
`String`/`List Char`; Python `float` amounts are modelled as exact rationals
(`ℚ`); Python `int` as `ℕ`.  Functions keep the source's names where Lean
allows it.
-/

/-- Whitespace test used to model Python's `str.strip()` / the regex class
`\s` (space, tab, newline, carriage return, vertical tab, form feed). -/
def boslukMu (c : Char) : Bool :=
  c = ' ' || c = '\t' || c = '\n' || c = '\r' || c = '\x0b' || c = '\x0c'

/-- ASCII digit test, modelling the regex class `\d` on this corpus. -/
def rakamMu (c : Char) : Bool := '0' ≤ c && c ≤ '9'

/-- Model of Python `str.lower()` per character, for the alphabet that occurs
in this repository (ASCII plus the Turkish uppercase letters).  Python's
`'İ'.lower()` is the two-codepoint string `i` + combining dot above, hence the
list-valued result. -/
def pyLowerChar (c : Char) : List Char :=
  if c = 'İ' then ['i', Char.ofNat 775]
  else if c = 'Ç' then ['ç']
  else if c = 'Ğ' then ['ğ']
  else if c = 'Ö' then ['ö']
  else if c = 'Ş' then ['ş']
  else if c = 'Ü' then ['ü']
  else if c.isUpper then [c.toLower]
  else [c]

/-- Model of Python `str.lower()` on a whole string. -/
def pyLowerS (s : String) : String := ⟨s.data.flatMap pyLowerChar⟩

/-- Model of Python `str.upper()` per character (ASCII range; the only inputs
this is applied to in the source are currency codes and digit strings). -/
def pyUpperChar (c : Char) : Char :=
  if c.isLower then c.toUpper else c

/-- Model of Python `str.upper()` on a whole string. -/
def pyUpperS (s : String) : String := ⟨s.data.map pyUpperChar⟩

/-- Model of Python `str.strip()`: drop leading and trailing whitespace. -/
def pyStripList (l : List Char) : List Char :=
  ((l.dropWhile boslukMu).reverse.dropWhile boslukMu).reverse

/-- String version of `pyStripList`. -/
def pyStripS (s : String) : String := ⟨pyStripList s.data⟩

/-- Membership of `needle` as a prefix of `hay` (character lists). -/
def bastaEsle : List Char → List Char → Bool
  | [], _ => true
  | _ :: _, [] => false
  | a :: as, b :: bs => a == b && bastaEsle as bs

/-- Model of Python's substring operator `needle in hay` on character lists. -/
def pyInL (needle : List Char) : List Char → Bool
  | [] => needle.isEmpty
  | b :: bs => bastaEsle needle (b :: bs) || pyInL needle bs

/-- Model of Python's substring operator `needle in hay` on strings. -/
def pyInStr (needle hay : String) : Bool := pyInL needle.data hay.data

/-- Model of Python's `str.split(sep)` for a one-character separator:
splits at every occurrence, keeping empty fragments. -/
def splitOnChar : List Char → Char → List (List Char)
  | [], _ => [[]]
  | c :: rest, sep =>
    if c = sep then [] :: splitOnChar rest sep
    else
      match splitOnChar rest sep with
      | [] => [[c]]
      | h :: t => (c :: h) :: t

/-- Model of `metin.split('\n')` as used by `risk_analizi_yap`. -/
def satirlara_bol (metin : String) : List String :=
  (splitOnChar metin.data '\n').map (fun l => ⟨l⟩)

/-- Model of Python's `sep.join(parts)`. -/
def joinSep (sep : String) : List String → String
  | [] => ""
  | [x] => x
  | x :: y :: rest => x ++ sep ++ joinSep sep (y :: rest)

/-- Decimal value of a digit list (most significant first). -/
def rakamDegeri (l : List Char) : ℕ :=
  l.foldl (fun n c => 10 * n + (c.toNat - 48)) 0

/-- Model of Python's `float(s)` on the strings this program feeds it (digits
and at most one decimal point; anything else raises `ValueError`, modelled as
`none`).  Values are exact rationals. -/
def pyFloat (s : List Char) : Option ℚ :=
  if s ≠ [] ∧ s.all (fun c => rakamMu c || c = '.') ∧
      (s.filter (fun c => c = '.')).length ≤ 1 ∧ s.any rakamMu then
    let kesir := (s.dropWhile (fun c => c ≠ '.')).drop 1
    some ((rakamDegeri (s.filter (fun c => c ≠ '.')) : ℚ) / (10 ^ kesir.length))
  else none

/-- Locale disambiguation of a matched numeric string, translated from
`toplam_alim_degeri_bul` (the same block appears verbatim at the two
conversion sites, lines 497-504 and 517-528 of the source, and again in
`onay_kurgusu_kontrol`): if both `.` and `,` occur, drop the dots and turn the
comma into a decimal point; if only `,` occurs it becomes the decimal point;
if only `.` occurs and every group after the first has exactly 3 characters,
the dots are removed as thousands separators. -/
def sayi_normalize (s : List Char) : List Char :=
  if s.contains ',' && s.contains '.' then
    (s.filter (fun c => c ≠ '.')).map (fun c => if c = ',' then '.' else c)
  else if s.contains ',' then
    s.map (fun c => if c = ',' then '.' else c)
  else if s.contains '.' then
    let parts := splitOnChar s '.'
    if 1 < parts.length && (parts.drop 1).all (fun p => p.length = 3) then
      s.filter (fun c => c ≠ '.')
    else s
  else s

/-- Full numeric-string parse as the extractor performs it: locale
normalization followed by `float` conversion. -/
def parse_sayi (s : String) : Option ℚ := pyFloat (sayi_normalize s.data)

/-- Restatement of the locale policy in the words of the specification
(section 4.1), kept separate from `parse_sayi` so the two can be compared:
rule 1 both separators, rule 2 only comma, rule 3 only dot with the
three-digit-group test. -/
def parse_sayi_spec (s : String) : Option ℚ :=
  if s.data.contains ',' && s.data.contains '.' then
    pyFloat ((s.data.filter (fun c => c ≠ '.')).map (fun c => if c = ',' then '.' else c))
  else if s.data.contains ',' then
    pyFloat (s.data.map (fun c => if c = ',' then '.' else c))
  else if s.data.contains '.' then
    let parts := splitOnChar s.data '.'
    if 1 < parts.length && (parts.drop 1).all (fun p => p.length = 3) then
      pyFloat (s.data.filter (fun c => c ≠ '.'))
    else pyFloat s.data
  else pyFloat s.data

/-- Approval-tier table `onay_limitleri` from `SatinalmaAnalizAsistani.__init__`
(lines 201-209).  `none` as upper bound models `float('inf')`. -/
def onay_limitleri : List (ℚ × Option ℚ × String) :=
  [(0, some 1000, "Satınalmacı"),
   (1001, some 5000, "Şef / Kategori Yöneticisi"),
   (5001, some 75000, "Müdür / Bölge Müdürü"),
   (75001, some 150000, "Direktör"),
   (150001, some 400000, "Kıdemli Direktör"),
   (400001, some 600000, "Genel Müdür Yardımcısı"),
   (600001, none, "Genel Müdür")]

/-- Range test `min_tutar <= tutar <= max_tutar` of `onay_mercii_belirle`;
a `none` upper bound (`float('inf')`) accepts everything. -/
def limit_uyar (e : ℚ × Option ℚ × String) (tutar : ℚ) : Bool :=
  decide (e.1 ≤ tutar) &&
    (match e.2.1 with
     | some m => decide (tutar ≤ m)
     | none => true)

/-- First-match scan over the tier table, translated from the `for` loop of
`onay_mercii_belirle` (lines 768-774). -/
def onay_ara : List (ℚ × Option ℚ × String) → ℚ → String
  | [], _ => "Belirsiz"
  | e :: rest, tutar => if limit_uyar e tutar then e.2.2 else onay_ara rest tutar

/-- Model of `onay_mercii_belirle`: tier lookup with `"Belirsiz"` as the
fall-through default. -/
def onay_mercii_belirle (tutar : ℚ) : String := onay_ara onay_limitleri tutar

/-- Round to the nearest integer, ties to even, modelling the rounding used by
Python's fixed-point formatting. -/
def yarimCift (q : ℚ) : ℤ :=
  let f := ⌊q⌋
  let r := q - f
  if r < 1 / 2 then f
  else if 1 / 2 < r then f + 1
  else if f % 2 = 0 then f else f + 1

/-- Insert a separator every three characters counting from the right
(input and output reversed). -/
def grup3Rev : List Char → List Char
  | a :: b :: c :: d :: rest => a :: b :: c :: '.' :: grup3Rev (d :: rest)
  | l => l

/-- Two-digit decimal rendering of a value below 100. -/
def ikiBasamak (n : ℕ) : String :=
  if n < 10 then "0" ++ toString n else toString n

/-- Model of `format_number_tr` (lines 18-36): Python's `f"{number:,.2f}"`
followed by swapping the thousands/decimal separators into Turkish
convention (`.` thousands, `,` decimal). -/
def format_number_tr (q : ℚ) : String :=
  let n := yarimCift (q * 100)
  let a := n.natAbs
  (if n < 0 then "-" else "") ++
    ⟨(grup3Rev (toString (a / 100)).data.reverse).reverse⟩ ++ "," ++ ikiBasamak (a % 100)

/-- Result record of `onay_kurgusu_hesapla` (the Python function returns a
five-key dict). -/
structure OnayKurgusu where
  kullanilan_deger : ℚ
  hesaplama_nedeni : String
  onay_mercii : String
  yillik_deger : Bool
  para_birimi : String
deriving DecidableEq

/-- Model of `onay_kurgusu_hesapla` (lines 706-766): consulting-tender
override, then the non-standard-contract (matbu) override, then the
annualization rules and tier lookup, then the `"Finansal Limit"` qualifier. -/
def onay_kurgusu_hesapla (toplam_deger : ℚ) (alim_tipi : String)
    (sozlesme_suresi : ℕ) (para_birimi : String)
    (yonetim_onay_gerekcesi : String) (matbu_sozlesme : Bool) : OnayKurgusu :=
  if pyInStr "Danışmanlık İhalesi" yonetim_onay_gerekcesi then
    { kullanilan_deger := toplam_deger
      hesaplama_nedeni :=
        "Yönetim Onay Gerekçesi \x27Danışmanlık İhalesi\x27 olduğu için tutar ne kadar olursa olsun Genel Müdür onayına çıkmalı"
      onay_mercii := "Genel Müdür"
      yillik_deger := false
      para_birimi := para_birimi }
  else if (decide (6 < sozlesme_suresi) || decide ((150000 : ℚ) < toplam_deger)) &&
      !matbu_sozlesme then
    { kullanilan_deger := toplam_deger
      hesaplama_nedeni :=
        "Sözleşme süresi " ++ toString sozlesme_suresi ++ " ay > 6 ay veya tutar " ++
          format_number_tr toplam_deger ++ " " ++ para_birimi ++
          " > 150.000 Euro olduğu ve matbu sözleşme yapılmayacağı için Minimum Direktör onayına çıkmalı"
      onay_mercii := "Minimum Direktör"
      yillik_deger := false
      para_birimi := para_birimi }
  else
    let adim :=
      if alim_tipi = "Spot" then
        (toplam_deger, "Spot alım olduğu için toplam değer doğrudan kullanıldı", false)
      else if alim_tipi = "Sürekli" then
        if decide (sozlesme_suresi < 12) && decide (0 < sozlesme_suresi) then
          (toplam_deger / (sozlesme_suresi : ℚ) * 12,
            "Sürekli alım ve " ++ toString sozlesme_suresi ++
              " ay < 12 ay olduğu için yıllıklaştırıldı", true)
        else if 12 ≤ sozlesme_suresi then
          (toplam_deger,
            "Sürekli alım ve " ++ toString sozlesme_suresi ++
              " ay ≥ 12 ay olduğu için toplam değer kullanıldı", false)
        else
          (toplam_deger,
            "Sürekli alım ancak sözleşme süresi belirtilmemiş, toplam değer kullanıldı", false)
      else
        (toplam_deger, "Alım tipi belirsiz, toplam değer kullanıldı", false)
    let mercii0 := onay_mercii_belirle adim.1
    let mercii :=
      if yonetim_onay_gerekcesi = "Finansal Limit" then mercii0 ++ " (minimum)" else mercii0
    { kullanilan_deger := adim.1
      hesaplama_nedeni := adim.2.1
      onay_mercii := mercii
      yillik_deger := adim.2.2
      para_birimi := para_birimi }

/-- Commercial risk phrase table `ticari_riskler` (lines 104-134 of the
source), in source order. -/
def ticari_riskler : List String :=
  [
    "küçük fiyat farkı", "hafif gecikme", "alternatif tedarikçi mevcut", "standart prosedür",
    "normal piyasa koşulları", "rutin işlem", "öngörülebilir maliyet", "planlı harcama",
    "bütçe dahilinde", "onaylanmış tedarikçi", "düzenli sipariş", "standart teslimat",
    "limit aşıldı", "tek tedarikçi", "yüksek tutar", "ödenmemiş", "fazla maliyet",
    "bütçe dışı", "fiyat farkı", "acil sipariş", "stok yetersizliği", "tedarikçi gecikmesi",
    "plan dışı maliyet", "pazarlık eksikliği", "onay limitini aşmıştır",
    "sadece tek tedarikçiden", "ödeme planı bütçe dışına", "maliyet beklenenden yüksek",
    "teslimatı etkileyebilir", "onay alınmadı", "gümrük vergisi", "ithalat kısıtlaması",
    "döviz kuru riski", "enflasyon", "maliyet artışı", "fiyat volatilitesi", "arz kesintisi",
    "tedarik zinciri riski", "tek tedarikçi bağımlılığı", "dolaylı teklif", "şeffaflık sorunu",
    "doğrudan fiyat teklifi iletmediği", "bayiler üzerinden teklif",
    "fiyat şeffaflığını azaltır", "tedarik kesintisi riski", "tedarikçilerin tamamı",
    "kalite sorunu", "teslimat belirsizliği", "fiyat istikrarsızlığı", "pazar dalgalanması",
    "tedarikçi değişikliği", "sözleşme revizyonu", "ödeme koşulları", "garanti sorunu",
    "ambargo", "kartel", "fiyat manipülasyonu", "piyasa bozucu", "tedarikçi bağımlılık",
    "monopol", "oligopol", "tekel durumunda", "tekel", "yaptırım", "Rusya-Ukrayna savaşı",
    "savaş nedeniyle", "savaş riski", "jeopolitik risk", "ekonomik yaptırım", "ticari ambargo",
    "finansal yaptırım", "sektörel yaptırım", "yaptırım listesi", "kara liste", "OFAC listesi",
    "AB yaptırımları", "uluslararası ambargo", "ticaret kısıtlaması", "ihracat yasağı",
    "ithalat yasağı", "dondurulan varlıklar", "mali yaptırım", "bankacılık yaptırımı",
    "kritik tedarikçi kaybı", "üretim durması", "operasyonel kriz", "acil durum",
    "sistem çökmesi", "büyük mali kayıp", "itibar kaybı", "müşteri kaybı", "yasal soruşturma",
    "ceza riski", "lisans iptali", "operasyon durdurma"
  ]

/-- Ethical risk phrase table `etik_riskler` (lines 136-165). -/
def etik_riskler : List String :=
  [
    "küçük hediye", "sosyal ilişki", "tanıdık referansı", "geçmiş iş ilişkisi",
    "sektörel yakınlık", "profesyonel tanışıklık", "iş ağı bağlantısı", "ortak proje geçmişi",
    "endüstri standardı", "yaygın uygulama", "sektör normu", "geleneksel yaklaşım",
    "çıkar çatışması", "taraflı seçim", "özel anlaşma", "arka kapı", "haksız avantaj",
    "rüşvet riski", "adil olmayan", "şirket politikası ihlali", "yanlı değerlendirme",
    "gizli anlaşma", "yakın ilişki nedeniyle taraflılık", "özel koşullar içermektedir",
    "haksız avantaj sağlanmıştır", "kayırmacılık", "şeffaflık eksikliği", "uygunsuz ilişki",
    "hediye", "menfaat", "adam kayırma", "torpil", "haksız rekabet", "etik ihlal", "komisyon",
    "taraflılık söz konusudur", "belirli bir kişi lehine", "tedarikçi katılım sürekliliği",
    "kayırmacılık ihtimali", "etik tartışma yaratabilir", "daha önce katılmayan",
    "yeniden dahil edilip seçilmesi", "ihaleye katılım göstermeyerek",
    "yeniden teklif iletmeye başlamışlardır", "kişisel çıkar", "aile bağlantısı",
    "finansal menfaat", "gizli ortaklık", "çifte standart", "ayrımcılık",
    "önyargılı değerlendirme", "objektif olmayan", "tarafsızlık kaybı", "rüşvet", "yolsuzluk",
    "savaş profitörlüğü", "kriz fırsatçılığı", "yaptırım kaçırma", "gizli işbirliği",
    "dolaylı ticaret", "üçüncü ülke üzerinden", "proxy şirket kullanımı",
    "sahte belgelendirme", "menşe hilesi", "etik dışı avantaj", "savaş durumundan yararlanma",
    "büyük rüşvet", "sistematik yolsuzluk", "organize suç", "kara para aklama",
    "terör finansmanı", "ciddi etik ihlal", "kurumsal yolsuzluk", "büyük çaplı dolandırıcılık",
    "sahtecilik", "belge tahrifi", "kimlik hırsızlığı", "vergi kaçırma", "gümrük kaçakçılığı"
  ]

/-- Legal risk phrase table `yasal_riskler` (lines 167-198). -/
def yasal_riskler : List String :=
  [
    "form eksikliği", "belge gecikmesi", "prosedür hatası", "imza eksikliği", "tarih hatası",
    "bilgi eksikliği", "kayıt hatası", "arşivleme sorunu", "raporlama gecikmesi",
    "bildirim eksikliği", "küçük usul hatası", "format sorunu", "standart dışı işlem",
    "rutin uyumsuzluk", "teknik hata", "sistem hatası", "kanun ihlali", "mevzuata aykırı",
    "sözleşme ihlali", "ceza riski", "uyumsuz", "denetim riski", "regülasyon eksikliği",
    "lisans eksikliği", "yetki aşımı", "vergilendirme hatası",
    "kanun gerekliliklerine uymamaktadır", "işlem iptal edilebilir",
    "işlem geçersiz sayılabilir", "sözleşme uygulanamaz", "yasal yaptırım riski",
    "ilgili mevzuata aykırıdır", "mevzuat denetimi sırasında ceza riski", "usulsüz",
    "yasa ihlali", "ihlal", "yasal yaptırım", "hukuki sorun", "mevzuat uyumsuzluğu",
    "ticari kısıtlara tabi", "yasal uyum riski", "yaptırım riski",
    "ileride yasal uyum riski oluşturabilir", "compliance ihlali", "uluslararası uyum riski",
    "vergi uyumsuzluğu", "gümrük ihlali", "ithalat kuralları ihlali", "ihracat kısıtlaması",
    "lisans ihlali", "patent ihlali", "telif hakkı ihlali", "marka ihlali", "yasadışı",
    "rekabet ihlali", "dolandırıcılık", "kanun dışı", "hukuksuz",
    "uluslararası yaptırımların ihlali", "ambargo ihlali", "karşılıklı uygulanan yaptırımlar",
    "OFAC ihlali", "AB yaptırım ihlali", "BM yaptırım ihlali", "ekonomik yaptırım ihlali",
    "savaş suçu", "uluslararası hukuk ihlali", "diplomatik yaptırım", "mali suç",
    "kara para aklama riski", "terör finansmanı riski", "yaptırım listesinde yer alma",
    "kısıtlı ülke", "yasaklı işlem", "ciddi ceza riski", "hapis cezası riski",
    "büyük para cezası", "lisans iptali riski", "faaliyet durdurma", "şirket kapatma riski",
    "uluslararası mahkeme", "extradition riski", "diplomatik kriz", "devlet güvenliği riski",
    "ulusal güvenlik ihlali", "casusluk riski"
  ]

/-- Low-severity phrase table `dusuk_risk_kelimeler` from the inner
`risk_skoru_hesapla` (lines 356-370). -/
def dusuk_risk_kelimeler : List String :=
  [
    "küçük fiyat farkı", "hafif gecikme", "alternatif tedarikçi mevcut", "standart prosedür",
    "normal piyasa koşulları", "rutin işlem", "öngörülebilir maliyet", "planlı harcama",
    "bütçe dahilinde", "onaylanmış tedarikçi", "düzenli sipariş", "standart teslimat",
    "küçük hediye", "sosyal ilişki", "tanıdık referansı", "geçmiş iş ilişkisi",
    "sektörel yakınlık", "profesyonel tanışıklık", "iş ağı bağlantısı", "ortak proje geçmişi",
    "endüstri standardı", "yaygın uygulama", "sektör normu", "geleneksel yaklaşım",
    "form eksikliği", "belge gecikmesi", "prosedür hatası", "imza eksikliği", "tarih hatası",
    "bilgi eksikliği", "kayıt hatası", "arşivleme sorunu", "raporlama gecikmesi",
    "bildirim eksikliği", "küçük usul hatası", "format sorunu", "standart dışı işlem",
    "rutin uyumsuzluk", "teknik hata", "sistem hatası"
  ]

/-- High-severity phrase table `yuksek_risk_kelimeler` from the inner
`risk_skoru_hesapla` (lines 373-401). -/
def yuksek_risk_kelimeler : List String :=
  [
    "ambargo", "kartel", "fiyat manipülasyonu", "piyasa bozucu", "tedarikçi bağımlılık",
    "monopol", "oligopol", "tekel durumunda", "tekel", "yaptırım", "Rusya-Ukrayna savaşı",
    "savaş nedeniyle", "savaş riski", "jeopolitik risk", "ekonomik yaptırım", "ticari ambargo",
    "finansal yaptırım", "sektörel yaptırım", "yaptırım listesi", "kara liste", "OFAC listesi",
    "AB yaptırımları", "uluslararası ambargo", "ticaret kısıtlaması", "ihracat yasağı",
    "ithalat yasağı", "dondurulan varlıklar", "mali yaptırım", "bankacılık yaptırımı",
    "kritik tedarikçi kaybı", "üretim durması", "operasyonel kriz", "acil durum",
    "sistem çökmesi", "büyük mali kayıp", "itibar kaybı", "müşteri kaybı", "yasal soruşturma",
    "ceza riski", "lisans iptali", "operasyon durdurma", "rüşvet", "yolsuzluk",
    "savaş profitörlüğü", "kriz fırsatçılığı", "yaptırım kaçırma", "gizli işbirliği",
    "dolaylı ticaret", "üçüncü ülke üzerinden", "proxy şirket kullanımı",
    "sahte belgelendirme", "menşe hilesi", "etik dışı avantaj", "savaş durumundan yararlanma",
    "büyük rüşvet", "sistematik yolsuzluk", "organize suç", "kara para aklama",
    "terör finansmanı", "ciddi etik ihlal", "kurumsal yolsuzluk", "büyük çaplı dolandırıcılık",
    "sahtecilik", "belge tahrifi", "kimlik hırsızlığı", "vergi kaçırma", "gümrük kaçakçılığı",
    "yasadışı", "rekabet ihlali", "dolandırıcılık", "kanun dışı", "hukuksuz",
    "uluslararası yaptırımların ihlali", "ambargo ihlali", "karşılıklı uygulanan yaptırımlar",
    "OFAC ihlali", "AB yaptırım ihlali", "BM yaptırım ihlali", "ekonomik yaptırım ihlali",
    "savaş suçu", "uluslararası hukuk ihlali", "diplomatik yaptırım", "mali suç",
    "kara para aklama riski", "terör finansmanı riski", "yaptırım listesinde yer alma",
    "kısıtlı ülke", "yasaklı işlem", "ciddi ceza riski", "hapis cezası riski",
    "büyük para cezası", "lisans iptali riski", "faaliyet durdurma", "şirket kapatma riski",
    "uluslararası mahkeme", "extradition riski", "diplomatik kriz", "devlet güvenliği riski",
    "ulusal güvenlik ihlali", "casusluk riski"
  ]

/-- Negation phrase table `olumsuzluk_ifadeleri` (line 306). -/
def olumsuzluk_ifadeleri : List String :=
  ["yoktur", "değildir", "bulunmamaktadır", "tespit edilmemiştir"]

/-- Negation check of `risk_analizi_yap` (lines 306-310): a line is skipped
when its lowered, stripped text contains any negation phrase. -/
def olumsuzluk_var (satir_temiz : String) : Bool :=
  olumsuzluk_ifadeleri.any (fun o => pyInStr o satir_temiz)

/-- Result type `RiskTespiti` of the risk detector (lines 77-84). -/
structure RiskTespiti where
  kategori : String
  ifade : String
  aciklama : String
  satir_no : ℕ
deriving DecidableEq

/-- Accumulator entry of the `cumle_risk_map` dictionary of
`risk_analizi_yap`: key `(tam_ifade, i)` plus the stored
`riskler`/`ifade`/`satir_no` value fields. -/
structure CumleKayit where
  anahtar : String × ℕ
  riskler : List (String × String)
  ifade : String
  satir_no : ℕ
deriving DecidableEq

/-- Terminal-punctuation test `endswith('.')/('!')/('?')` used by
`tam_cumle_al`. -/
def sonlandirici (l : List Char) : Bool :=
  match l.getLast? with
  | some c => c = '.' || c = '!' || c = '?'
  | none => false

/-- One lookahead step of the sentence-reconstruction loop of `tam_cumle_al`
(lines 292-298): skip empty lines, append a non-empty line, stop after a line
with terminal punctuation. -/
def tam_cumle_ekle (satirlar : List String) (j : ℕ) (st : String × Bool) :
    String × Bool :=
  if st.2 then st
  else
    match satirlar.get? j with
    | none => st
    | some l =>
      let nl := pyStripS l
      if nl.data ≠ [] then (st.1 ++ " " ++ nl, sonlandirici nl.data) else st

/-- Model of `tam_cumle_al` (lines 284-300): take the stripped line at index
`k`; if it does not end in terminal punctuation, extend it by up to the two
following non-empty lines. -/
def tam_cumle_al (satirlar : List String) (k : ℕ) : String :=
  let cumle := pyStripS (satirlar.getD k "")
  if sonlandirici cumle.data then cumle
  else (tam_cumle_ekle satirlar (k + 2) (tam_cumle_ekle satirlar (k + 1) (cumle, false))).1

/-- Phrase matches of one normalized line against the three category tables,
in source order (lines 315-328). -/
def satir_tespitleri (satir_temiz : String) : List (String × String) :=
  ((ticari_riskler.filter (fun k => pyInStr k satir_temiz)).map
      (fun k => ("Ticari Risk", k))) ++
  ((etik_riskler.filter (fun k => pyInStr k satir_temiz)).map
      (fun k => ("Etik Risk", k))) ++
  ((yasal_riskler.filter (fun k => pyInStr k satir_temiz)).map
      (fun k => ("Yasal Risk", k)))

/-- Per-line body of the main loop of `risk_analizi_yap` (lines 302-342):
skip negated lines, collect phrase matches, and build the map entry keyed by
the reconstructed sentence and the 1-based line number `i`. -/
def risk_satir_isle (satirlar : List String) (i : ℕ) (satir : String) :
    Option CumleKayit :=
  let satir_temiz := pyStripS (pyLowerS satir)
  if olumsuzluk_var satir_temiz then none
  else
    let tam_ifade := tam_cumle_al satirlar (i - 1)
    let tespit := satir_tespitleri satir_temiz
    if tespit.isEmpty then none
    else some ⟨(tam_ifade, i), tespit, tam_ifade, i⟩

/-- Dictionary update of `cumle_risk_map` (lines 331-342): extend the
`riskler` of an existing key, or append a new entry (Python dicts preserve
insertion order). -/
def kayit_birlestir (m : List CumleKayit) (yeni : CumleKayit) : List CumleKayit :=
  if m.any (fun e => e.anahtar = yeni.anahtar) then
    m.map (fun e =>
      if e.anahtar = yeni.anahtar then
        { e with riskler := e.riskler ++ yeni.riskler }
      else e)
  else m ++ [yeni]

/-- Main loop of `risk_analizi_yap` over `enumerate(satirlar, 1)`, threading
the ordered map. -/
def risk_dongu (satirlar : List String) : ℕ → List String → List CumleKayit →
    List CumleKayit
  | _, [], m => m
  | i, satir :: rest, m =>
    risk_dongu satirlar (i + 1) rest
      (match risk_satir_isle satirlar i satir with
       | none => m
       | some y => kayit_birlestir m y)

/-- Severity scoring `risk_skoru_hesapla` (lines 354-414): any high-table
phrase gives 3, else any low-table phrase gives 1, else 2. -/
def risk_skoru_hesapla (kelimeler : List String) : ℕ :=
  if kelimeler.any (fun k => yuksek_risk_kelimeler.contains k) then 3
  else if kelimeler.any (fun k => dusuk_risk_kelimeler.contains k) then 1
  else 2

/-- Fixed per-category reason/recommendation texts `sebep_oneriler_olustur`
(lines 417-430). -/
def sebep_oneriler_olustur (kategori : String) : String × String :=
  if kategori = "Ticari Risk" then
    ("Finansal ve ticari süreçlerde risk tespit edildi",
     "• Bütçe kontrolü yapın ve onay limitlerini kontrol edin\n• Alternatif tedarikçiler araştırın\n• Maliyet analizi güncelleyin ve pazarlık süreçlerini iyileştirin\n• Acil siparişleri minimize edin ve stok planlaması yapın")
  else if kategori = "Etik Risk" then
    ("Etik kurallara aykırı durum tespit edildi",
     "• Şeffaflık sağlayın ve tüm süreçleri belgelendirin\n• Çıkar çatışması kontrolü yapın\n• Etik kurallara uygunluğu doğrulayın\n• Tarafsız değerlendirme süreci uygulayın\n• Gizli anlaşmaları önleyici tedbirler alın")
  else if kategori = "Yasal Risk" then
    ("Yasal mevzuata uyumsuzluk tespit edildi",
     "• Hukuki danışmanlık alın\n• Mevzuat uyumluluğunu kontrol edin\n• Gerekli lisans ve izinleri alın\n• Yetki sınırlarını belirleyin\n• Vergilendirme kontrolü yapın\n• Sözleşme şartlarını gözden geçirin")
  else
    ("Birden fazla kategoride risk tespit edildi",
     "• Kapsamlı risk değerlendirmesi yapın\n• Uzman görüşü alın\n• Tüm süreçleri gözden geçirin\n• Acil eylem planı hazırlayın\n• Üst yönetimi bilgilendirin")

/-- Severity label used in the explanation f-string (line 440). -/
def skor_etiket (skor : ℕ) : String :=
  if skor = 1 then "Düşük" else if skor = 2 then "Orta" else "Yüksek"

/-- Explanation f-string of `risk_analizi_yap` (lines 440 and 449). -/
def aciklama_olustur (sebep : String) (kelimeler : List String) (skor : ℕ)
    (etiket oneriler : String) : String :=
  "<strong>Sebep:</strong> " ++ sebep ++
    "\n<strong>Tespit Edilen İfadeler:</strong> \x27" ++ joinSep ", " kelimeler ++
    "\x27\n<strong>Risk Skoru:</strong> " ++ toString skor ++ " (" ++ etiket ++
    ")\n<strong>Öneriler:</strong> " ++ oneriler

/-- Category grouping step: Python's `kategori_groups` setdefault/append
(lines 347-351), preserving first-seen category order. -/
def grup_ekle (acc : List (String × List String)) (kat kel : String) :
    List (String × List String) :=
  if acc.any (fun e => e.1 = kat) then
    acc.map (fun e => if e.1 = kat then (e.1, e.2 ++ [kel]) else e)
  else acc ++ [(kat, [kel])]

/-- Fold building `kategori_groups` from the collected `(category, phrase)`
pairs of one sentence. -/
def kategori_grupla : List (String × String) → List (String × List String) →
    List (String × List String)
  | [], acc => acc
  | (kat, kel) :: rest, acc => kategori_grupla rest (grup_ekle acc kat kel)

/-- Conversion of one merged map entry to a `RiskTespiti` (lines 432-456):
single-category sentences are scored by the severity tables; multi-category
sentences get the comma-joined category string and a fixed score of 3. -/
def tespit_olustur (kayit : CumleKayit) : RiskTespiti :=
  let gruplar := kategori_grupla kayit.riskler []
  let kategoriler := gruplar.map Prod.fst
  if kategoriler.length = 1 then
    let kategori := kategoriler.headD ""
    let kelimeler := (gruplar.headD ("", [])).2
    let skor := risk_skoru_hesapla kelimeler
    let so := sebep_oneriler_olustur kategori
    ⟨kategori, kayit.ifade,
      aciklama_olustur so.1 kelimeler skor (skor_etiket skor) so.2, kayit.satir_no⟩
  else
    let kategori := joinSep ", " kategoriler
    let tum := (gruplar.map Prod.snd).flatten
    let so := sebep_oneriler_olustur kategori
    ⟨kategori, kayit.ifade,
      aciklama_olustur so.1 tum 3 "Yüksek" so.2, kayit.satir_no⟩

/-- Model of `risk_analizi_yap` (lines 278-458): split into lines, run the
negation-filtered phrase scan building the ordered sentence map, then convert
each merged entry to a finding. -/
def risk_analizi_yap (metin : String) : List RiskTespiti :=
  let satirlar := satirlara_bol metin
  (risk_dongu satirlar 1 satirlar []).map tespit_olustur

/-- Dropping a prefix by a predicate never lengthens a list (used for the
termination of the run-splitting helpers below). -/
lemma dropWhile_uzunluk {α : Type} (p : α → Bool) (l : List α) :
    (l.dropWhile p).length ≤ l.length := by
  induction l with
  | nil => simp
  | cons a l ih =>
    by_cases h : p a
    · simp only [List.dropWhile_cons, h, if_true, List.length_cons]
      omega
    · simp [List.dropWhile_cons, h]

/-- Sentence-terminal punctuation class `[.!?]` of `cumle_segmentasyonu`. -/
def noktalamaMu (c : Char) : Bool := c = '.' || c = '!' || c = '?'

mutual

/-- Model of `re.split(r'[.!?]+', metin)`: split on maximal runs of
sentence-terminal punctuation, keeping empty fragments at the ends.  `acc`
holds the current fragment reversed. -/
def noktalama_bol : List Char → List Char → List (List Char)
  | [], acc => [acc.reverse]
  | c :: rest, acc =>
    if noktalamaMu c then acc.reverse :: noktalama_akisi rest
    else noktalama_bol rest (c :: acc)

/-- Skip the remainder of a punctuation run, then resume fragment collection. -/
def noktalama_akisi : List Char → List (List Char)
  | [] => [[]]
  | c :: rest =>
    if noktalamaMu c then noktalama_akisi rest else noktalama_bol rest [c]

end

/-- Model of `cumle_segmentasyonu` (lines 790-795): split on `[.!?]+` runs and
keep the stripped fragments that are non-empty and longer than 10 characters. -/
def cumle_segmentasyonu (metin : String) : List String :=
  (((noktalama_bol metin.data []).map pyStripList).filter
      (fun c => !c.isEmpty && decide (10 < c.length))).map (fun l => ⟨l⟩)

mutual

/-- Whitespace-run collapsing of `metin_temizle`: `re.sub(r'\s+', ' ', metin)`,
emitting one space per maximal whitespace run. -/
def bosluk_sikistir : List Char → List Char
  | [] => []
  | c :: rest =>
    if boslukMu c then ' ' :: bosluk_akisi rest
    else c :: bosluk_sikistir rest

/-- Skip the remainder of a whitespace run. -/
def bosluk_akisi : List Char → List Char
  | [] => []
  | c :: rest =>
    if boslukMu c then bosluk_akisi rest else c :: bosluk_sikistir rest

end

/-- Model of `metin_temizle` (lines 776-788): collapse whitespace runs to a
single space and strip the ends. -/
def metin_temizle (s : String) : String := ⟨pyStripList (bosluk_sikistir s.data)⟩

/-- Model of `pozisyon_bazli_ozet` (lines 849-858): all sentences when there
are at most 4, else the first two and last two. -/
def pozisyon_bazli_ozet (metin : String) : List String :=
  let cumleler := cumle_segmentasyonu metin
  if cumleler.length ≤ 4 then cumleler
  else cumleler.take 2 ++ cumleler.drop (cumleler.length - 2)

/-- Greedy similarity filter of `extractive_ozet_olustur` (lines 875-886):
keep a sentence unless it is more than 0.7-similar to an already-kept one.
The similarity function (`cumle_benzerlik_orani`, scikit-learn cosine with a
Jaccard fallback) is an external-library computation and is passed in as a
parameter. -/
def benzersiz_filtrele (sim : String → String → ℚ) :
    List String → List String → List String
  | acc, [] => acc
  | acc, c :: rest =>
    if acc.any (fun m => decide ((7 : ℚ) / 10 < sim c m)) then
      benzersiz_filtrele sim acc rest
    else benzersiz_filtrele sim (acc ++ [c]) rest

/-- Combination pipeline of `extractive_ozet_olustur` (lines 865-889): clean
the text, concatenate the three strategy outputs, deduplicate by similarity,
and cap at 7 sentences.  The TF-IDF and TextRank selectors call scikit-learn
and sumy respectively and are passed in as parameters; the positional
selector is `pozisyon_bazli_ozet`. -/
def extractive_final_cumleler (tfidf textrank : String → ℕ → List String)
    (sim : String → String → ℚ) (metin : String) : List String :=
  let temiz_metin := metin_temizle metin
  let tum_cumleler :=
    tfidf temiz_metin 5 ++ textrank temiz_metin 5 ++ pozisyon_bazli_ozet temiz_metin
  (benzersiz_filtrele sim [] tum_cumleler).take 7

/-- Model of `extractive_ozet_olustur` (lines 860-896): the short-input
sentinel guard, then the bullet-formatted joined summary of the capped
sentence list. -/
def extractive_ozet_olustur (tfidf textrank : String → ℕ → List String)
    (sim : String → String → ℚ) (metin : String) : String :=
  if metin.data.isEmpty || decide ((pyStripList metin.data).length < 50) then
    "Özet oluşturmak için yeterli metin bulunamadı."
  else
    let final_cumleler := extractive_final_cumleler tfidf textrank sim metin
    pyStripS (String.join (final_cumleler.map (fun c => "• " ++ c ++ "\n")))

/-- Case-insensitive simple lowering used to model `re.IGNORECASE` literal
matching (ASCII plus the Turkish letters appearing in the patterns). -/
def kucukHarf (c : Char) : Char :=
  if c = 'İ' then 'i'
  else if c = 'Ç' then 'ç'
  else if c = 'Ğ' then 'ğ'
  else if c = 'Ö' then 'ö'
  else if c = 'Ş' then 'ş'
  else if c = 'Ü' then 'ü'
  else if c.isUpper then c.toLower
  else c

/-- Regular-expression syntax covering the constructs used by
`toplam_alim_degeri_bul`: character sets, concatenation, alternation,
greedy/lazy star, capturing groups and negative lookahead. -/
inductive Regex where
  | eps : Regex
  | cset : (Char → Bool) → Regex
  | seq : Regex → Regex → Regex
  | alt : Regex → Regex → Regex
  | star : Bool → Regex → Regex
  | grp : ℕ → Regex → Regex
  | nla : Regex → Regex

/-- Capture store: group number paired with the consumed characters. -/
def Yakalamalar : Type := List (ℕ × List Char)

/-- Backtracking matcher in continuation-passing style, mirroring the Python
`re` engine's strategy: alternatives try the left branch first, a greedy star
tries one more iteration before stopping, a lazy star (`.*?`) stops first.
`fuel` bounds the recursion depth; `reSearch` supplies more fuel than any
search on its input can consume, so the bound is never the deciding factor. -/
def reMat : ℕ → Regex → List Char → Yakalamalar →
    (List Char → Yakalamalar → Option Yakalamalar) → Option Yakalamalar
  | 0, _, _, _, _ => none
  | fuel + 1, r, s, cs, k =>
    match r with
    | .eps => k s cs
    | .cset f =>
      match s with
      | [] => none
      | c :: t => if f c then k t cs else none
    | .seq a b => reMat fuel a s cs (fun s2 cs2 => reMat fuel b s2 cs2 k)
    | .alt a b =>
      (reMat fuel a s cs k).orElse (fun _ => reMat fuel b s cs k)
    | .star g a =>
      if g then
        (reMat fuel a s cs (fun s2 cs2 => reMat fuel (.star g a) s2 cs2 k)).orElse
          (fun _ => k s cs)
      else
        (k s cs).orElse
          (fun _ => reMat fuel a s cs (fun s2 cs2 => reMat fuel (.star g a) s2 cs2 k))
    | .grp n a =>
      reMat fuel a s cs (fun s2 cs2 => k s2 ((n, s.take (s.length - s2.length)) :: cs2))
    | .nla a =>
      match reMat fuel a s [] (fun _ cs2 => some cs2) with
      | some _ => none
      | none => k s cs

/-- First capture recorded for a group number. -/
def yakalama_bul (n : ℕ) : Yakalamalar → Option (List Char)
  | [] => none
  | (m, v) :: rest => if m = n then some v else yakalama_bul n rest

/-- Model of `re.search`: try an anchored match at each successive start
position and return the `groups()` tuple of the first success. -/
def reSearch (r : Regex) (s : List Char) (maxg : ℕ) :
    Option (List (Option (List Char))) :=
  match reMat (1000 + 4 * s.length) r s [] (fun _ cs => some cs) with
  | some cs => some ((List.range maxg).map (fun i => yakalama_bul (i + 1) cs))
  | none =>
    match s with
    | [] => none
    | _ :: t => reSearch r t maxg

/-- Literal string under `re.IGNORECASE`. -/
def rlit (s : String) : Regex :=
  s.data.foldr (fun c r => Regex.seq (Regex.cset (fun d => kucukHarf d = kucukHarf c)) r)
    Regex.eps

/-- Concatenation of a pattern list. -/
def rcat (l : List Regex) : Regex := l.foldr Regex.seq Regex.eps

/-- One-or-more repetition (`+`, greedy). -/
def rplus (r : Regex) : Regex := .seq r (.star true r)

/-- Optional pattern (`?`, greedy). -/
def ropt (r : Regex) : Regex := .alt r .eps

/-- Character classes of the extraction patterns: `\s`, `\d`, `[\d.,]`,
`[:\s]`, `[A-Z]` under `IGNORECASE`, `.` and single literal characters. -/
def cBosluk : Regex := .cset boslukMu

/-- Class `\d`. -/
def cRakam : Regex := .cset rakamMu

/-- Class `[\d.,]` (same set as `[\d,\.]`). -/
def cSayi : Regex := .cset (fun c => rakamMu c || c = '.' || c = ',')

/-- Class `[:\s]`. -/
def cIkiNokta : Regex := .cset (fun c => c = ':' || boslukMu c)

/-- Class `[A-Z]` under `IGNORECASE` (ASCII letters). -/
def cHarf : Regex := .cset (fun c => ('A' ≤ c && c ≤ 'Z') || ('a' ≤ c && c ≤ 'z'))

/-- Class `.` (any character except newline). -/
def cHerhangi : Regex := .cset (fun c => c ≠ '\n')

/-- Single literal character. -/
def rchr (c : Char) : Regex := .cset (fun d => d = c)

/-- Currency alternation `(USD|EUR|TRY|RUB)` of patterns 1-2. -/
def curBuyuk : Regex :=
  .alt (rlit "USD") (.alt (rlit "EUR") (.alt (rlit "TRY") (rlit "RUB")))

/-- Currency alternation `(rub|eur|usd|try)` of patterns 7-10. -/
def curKucuk : Regex :=
  .alt (rlit "rub") (.alt (rlit "eur") (.alt (rlit "usd") (rlit "try")))

/-- Pattern `Toplam\s+Alım\s+Değeri\s+([\d.,]+)\s+(USD|EUR|TRY|RUB)`. -/
def kalip1 : Regex :=
  rcat [rlit "Toplam", rplus cBosluk, rlit "Alım", rplus cBosluk, rlit "Değeri",
    rplus cBosluk, .grp 1 (rplus cSayi), rplus cBosluk, .grp 2 curBuyuk]

/-- Pattern `toplam\s+alım\s+değeri[:\s]*([\d.,]+)\s+(USD|EUR|TRY|RUB)`. -/
def kalip2 : Regex :=
  rcat [rlit "toplam", rplus cBosluk, rlit "alım", rplus cBosluk, rlit "değeri",
    .star true cIkiNokta, .grp 1 (rplus cSayi), rplus cBosluk, .grp 2 curBuyuk]

/-- Body `[:\s]*\(?([A-Z]{3})\)?[:\s]*([\d,\.]+)` shared by patterns 3-6. -/
def kalipKodluGovde : Regex :=
  rcat [.star true cIkiNokta, ropt (rchr '('), .grp 1 (rcat [cHarf, cHarf, cHarf]),
    ropt (rchr ')'), .star true cIkiNokta, .grp 2 (rplus cSayi)]

/-- Pattern `toplam\s+alım\s+değeri[:\s]*\(?([A-Z]{3})\)?[:\s]*([\d,\.]+)`. -/
def kalip3 : Regex :=
  rcat [rlit "toplam", rplus cBosluk, rlit "alım", rplus cBosluk, rlit "değeri",
    kalipKodluGovde]

/-- Pattern `total\s+purchase\s+value[:\s]*\(?([A-Z]{3})\)?[:\s]*([\d,\.]+)`. -/
def kalip4 : Regex :=
  rcat [rlit "total", rplus cBosluk, rlit "purchase", rplus cBosluk, rlit "value",
    kalipKodluGovde]

/-- Pattern `toplam\s+tutar[:\s]*\(?([A-Z]{3})\)?[:\s]*([\d,\.]+)`. -/
def kalip5 : Regex :=
  rcat [rlit "toplam", rplus cBosluk, rlit "tutar", kalipKodluGovde]

/-- Pattern `total\s+amount[:\s]*\(?([A-Z]{3})\)?[:\s]*([\d,\.]+)`. -/
def kalip6 : Regex :=
  rcat [rlit "total", rplus cBosluk, rlit "amount", kalipKodluGovde]

/-- Pattern `([\d,\.]+)\s*(rub|eur|usd|try)\s*/\s*ton`. -/
def kalip7 : Regex :=
  rcat [.grp 1 (rplus cSayi), .star true cBosluk, .grp 2 curKucuk,
    .star true cBosluk, rchr '/', .star true cBosluk, rlit "ton"]

/-- Pattern `([\d,\.]+)\s*(rub|eur|usd|try)(?!\s*/\s*ton)`. -/
def kalip8 : Regex :=
  rcat [.grp 1 (rplus cSayi), .star true cBosluk, .grp 2 curKucuk,
    .nla (rcat [.star true cBosluk, rchr '/', .star true cBosluk, rlit "ton"])]

/-- Pattern `(\d+)\s*ton.*?([\d,\.]+)\s*(rub|eur|usd|try)`. -/
def kalip9 : Regex :=
  rcat [.grp 1 (rplus cRakam), .star true cBosluk, rlit "ton", .star false cHerhangi,
    .grp 2 (rplus cSayi), .star true cBosluk, .grp 3 curKucuk]

/-- Pattern `(\d+)\s*ton.*?([\d,\.]+)\s*(rub|eur|usd|try)\s*/\s*ton`. -/
def kalip10 : Regex :=
  rcat [.grp 1 (rplus cRakam), .star true cBosluk, rlit "ton", .star false cHerhangi,
    .grp 2 (rplus cSayi), .star true cBosluk, .grp 3 curKucuk,
    .star true cBosluk, rchr '/', .star true cBosluk, rlit "ton"]

/-- Ordered pattern list `deger_kaliplari` (lines 463-477), with each
pattern's group count. -/
def deger_kaliplari : List (Regex × ℕ) :=
  [(kalip1, 2), (kalip2, 2), (kalip3, 2), (kalip4, 2), (kalip5, 2), (kalip6, 2),
   (kalip7, 2), (kalip8, 2), (kalip9, 3), (kalip10, 3)]

/-- Shared conversion tail of the pattern loop (lines 516-531): locale
normalization of the amount string, then `float`; a conversion failure makes
the loop `continue` to the next pattern (modelled as `none`). -/
def donustur (deger_str : List Char) (para_birimi : String) : Option (ℚ × String) :=
  (pyFloat (sayi_normalize deger_str)).map (fun d => (d, para_birimi))

/-- Currency codes accepted verbatim by the first two-group branch (line 485). -/
def para_listesi : List String := ["USD", "EUR", "TRY", "RUB"]

/-- Branch logic applied to a successful match of one pattern
(lines 481-533 of `toplam_alim_degeri_bul`): the two-group branches pick
amount/currency by whether the second group is a known currency code; the
three-group branch computes quantity times unit price. -/
def kalip_dene (metin : List Char) (p : Regex × ℕ) : Option (ℚ × String) :=
  match reSearch p.1 metin p.2 with
  | none => none
  | some gruplar =>
    match gruplar with
    | [some g0, some g1] =>
      if para_listesi.contains ⟨g1⟩ then donustur g0 (pyUpperS ⟨g1⟩)
      else donustur g1 (pyUpperS ⟨g0⟩)
    | [some g0, some g1, some g2] =>
      if !g0.isEmpty && !g1.isEmpty then
        match pyFloat g0, pyFloat (sayi_normalize g1) with
        | some miktar, some fiyat => some (miktar * fiyat, pyUpperS ⟨g2⟩)
        | _, _ => none
      else donustur g0 (pyUpperS ⟨g1⟩)
    | _ => none

/-- First-success scan over the ordered pattern list. -/
def kaliplari_dene : List (Regex × ℕ) → List Char → Option (ℚ × String)
  | [], _ => none
  | p :: rest, metin =>
    match kalip_dene metin p with
    | some r => some r
    | none => kaliplari_dene rest metin

/-- Fallback quantity pattern `(\d+)\s*ton` (line 541). -/
def kalipMiktar : Regex := rcat [.grp 1 (rplus cRakam), .star true cBosluk, rlit "ton"]

/-- Fallback unit-price pattern `([\d,\.]+)\s*rub\s*/\s*ton` (line 542). -/
def kalipFiyat : Regex :=
  rcat [.grp 1 (rplus cSayi), .star true cBosluk, rlit "rub",
    .star true cBosluk, rchr '/', .star true cBosluk, rlit "ton"]

/-- Model of `toplam_alim_degeri_bul` (lines 460-553): try the ten patterns in
order; if none converts, check the hard-coded `120.000KG`/`62.300RUB` pair;
then the generic quantity-times-price fallback (whose price conversion strips
commas only); otherwise return zero USD. -/
def toplam_alim_degeri_bul (metin : String) : ℚ × String :=
  match kaliplari_dene deger_kaliplari metin.data with
  | some r => r
  | none =>
    if pyInStr "120.000KG" metin && pyInStr "62.300RUB" metin then
      (7476000, "RUB")
    else
      match reSearch kalipMiktar metin.data 1, reSearch kalipFiyat metin.data 1 with
      | some [some m], some [some f] =>
        match pyFloat m, pyFloat (f.filter (fun c => c ≠ ',')) with
        | some miktar, some fiyat => (miktar * fiyat, "RUB")
        | _, _ => (0, "USD")
      | _, _ => (0, "USD")

/-- Flattened form of the `risk_dongu` fold: because every map key carries its
own 1-based line number, the dictionary-extension branch of the loop never
fires and the accumulated map is the per-line concatenation of entries. -/
def risk_liste (satirlar : List String) : ℕ → List String → List CumleKayit
  | _, [] => []
  | i, satir :: rest =>
    (risk_satir_isle satirlar i satir).toList ++ risk_liste satirlar (i + 1) rest

/-- Stripping never lengthens a character list. -/
lemma pyStripList_uzunluk (l : List Char) : (pyStripList l).length ≤ l.length := by
  unfold pyStripList
  calc ((l.dropWhile boslukMu).reverse.dropWhile boslukMu).reverse.length
      = ((l.dropWhile boslukMu).reverse.dropWhile boslukMu).length := by
        rw [List.length_reverse]
    _ ≤ (l.dropWhile boslukMu).reverse.length := dropWhile_uzunluk _ _
    _ = (l.dropWhile boslukMu).length := by rw [List.length_reverse]
    _ ≤ l.length := dropWhile_uzunluk _ _

/-- Evaluation helper for `pyFloat` on concrete digit strings. -/
lemma pyFloat_eval (s : List Char) (n k : ℕ)
    (hg : s ≠ [] ∧ s.all (fun c => rakamMu c || c = '.') ∧
      (s.filter (fun c => c = '.')).length ≤ 1 ∧ s.any rakamMu)
    (hn : rakamDegeri (s.filter (fun c => c ≠ '.')) = n)
    (hk : ((s.dropWhile (fun c => c ≠ '.')).drop 1).length = k) :
    pyFloat s = some ((n : ℚ) / 10 ^ k) := by
  unfold pyFloat
  rw [if_pos hg]
  dsimp only
  rw [hn, hk]

/-- Every tier-table lookup returns one of the seven configured authority
names or the fall-through default. -/
lemma mercii_secenek (v : ℚ) :
    onay_mercii_belirle v ∈ ["Satınalmacı", "Şef / Kategori Yöneticisi",
      "Müdür / Bölge Müdürü", "Direktör", "Kıdemli Direktör",
      "Genel Müdür Yardımcısı", "Genel Müdür", "Belirsiz"] := by
  simp only [onay_mercii_belirle, onay_limitleri, onay_ara]
  split_ifs <;> simp

/-- No tier lookup yields the override designation. -/
lemma mercii_min_dir1 (v : ℚ) : onay_mercii_belirle v ≠ "Minimum Direktör" := by
  have h := mercii_secenek v
  simp only [List.mem_cons, List.not_mem_nil, or_false] at h
  rcases h with h | h | h | h | h | h | h | h <;> rw [h] <;> decide

/-- No tier lookup with the `"Finansal Limit"` qualifier yields the override
designation either. -/
lemma mercii_min_dir2 (v : ℚ) :
    onay_mercii_belirle v ++ " (minimum)" ≠ "Minimum Direktör" := by
  have h := mercii_secenek v
  simp only [List.mem_cons, List.not_mem_nil, or_false] at h
  rcases h with h | h | h | h | h | h | h | h <;> rw [h] <;> decide

/-- Claim C1, counterexample: at the non-integer value 1000.5 no entry of the
approval tier table matches — the gap between the `[0,1000]` and
`[1001,5000]` tiers — and the lookup falls through to the `"Belirsiz"`
(undetermined) default, contradicting the claimed full coverage of `[0, ∞)`. -/
theorem C1_tablo_bosluk :
    List.countP (fun e => limit_uyar e (Rat.mk' 2001 2)) onay_limitleri = 0 ∧
    (0 : ℚ) ≤ Rat.mk' 2001 2 ∧
    onay_mercii_belirle (Rat.mk' 2001 2) = "Belirsiz" := by decide

/-- Claim C1, amended: on every *integer* value `v ≥ 0` exactly one entry of
the approval tier table matches and the lookup never returns the
`"Belirsiz"` default; coverage fails only on the fractional values inside the
six unit-wide gaps between consecutive tiers. -/
theorem C1_tablo_tamsayi (n : ℕ) :
    List.countP (fun e => limit_uyar e (n : ℚ)) onay_limitleri = 1 ∧
    onay_mercii_belirle (n : ℚ) ≠ "Belirsiz" := by
  have c0 : (0 : ℚ) ≤ (n : ℚ) := Nat.cast_nonneg n
  rcases le_or_lt n 1000 with h | h1
  · have d1 : ((n : ℚ)) ≤ 1000 := by exact_mod_cast h
    have d2 : ¬ (1001 : ℚ) ≤ (n : ℚ) := by exact_mod_cast (by omega : ¬ 1001 ≤ n)
    have d3 : ¬ (5001 : ℚ) ≤ (n : ℚ) := by exact_mod_cast (by omega : ¬ 5001 ≤ n)
    have d4 : ¬ (75001 : ℚ) ≤ (n : ℚ) := by exact_mod_cast (by omega : ¬ 75001 ≤ n)
    have d5 : ¬ (150001 : ℚ) ≤ (n : ℚ) := by exact_mod_cast (by omega : ¬ 150001 ≤ n)
    have d6 : ¬ (400001 : ℚ) ≤ (n : ℚ) := by exact_mod_cast (by omega : ¬ 400001 ≤ n)
    have d7 : ¬ (600001 : ℚ) ≤ (n : ℚ) := by exact_mod_cast (by omega : ¬ 600001 ≤ n)
    refine ⟨?_, ?_⟩ <;>
      simp +decide [onay_mercii_belirle, onay_ara, onay_limitleri, limit_uyar,
        List.countP_cons, List.countP_nil, c0, d1, d2, d3, d4, d5, d6, d7]
  · rcases le_or_lt n 5000 with h | h2
    · have d0 : (1001 : ℚ) ≤ (n : ℚ) := by exact_mod_cast (by omega : 1001 ≤ n)
      have d1 : ¬ ((n : ℚ)) ≤ 1000 := by exact_mod_cast (by omega : ¬ n ≤ 1000)
      have d2 : ((n : ℚ)) ≤ 5000 := by exact_mod_cast h
      have d3 : ¬ (5001 : ℚ) ≤ (n : ℚ) := by exact_mod_cast (by omega : ¬ 5001 ≤ n)
      have d4 : ¬ (75001 : ℚ) ≤ (n : ℚ) := by exact_mod_cast (by omega : ¬ 75001 ≤ n)
      have d5 : ¬ (150001 : ℚ) ≤ (n : ℚ) := by exact_mod_cast (by omega : ¬ 150001 ≤ n)
      have d6 : ¬ (400001 : ℚ) ≤ (n : ℚ) := by exact_mod_cast (by omega : ¬ 400001 ≤ n)
      have d7 : ¬ (600001 : ℚ) ≤ (n : ℚ) := by exact_mod_cast (by omega : ¬ 600001 ≤ n)
      refine ⟨?_, ?_⟩ <;>
        simp +decide [onay_mercii_belirle, onay_ara, onay_limitleri, limit_uyar,
          List.countP_cons, List.countP_nil, c0, d0, d1, d2, d3, d4, d5, d6, d7]
    · rcases le_or_lt n 75000 with h | h3
      · have d0 : (1001 : ℚ) ≤ (n : ℚ) := by exact_mod_cast (by omega : 1001 ≤ n)
        have d0b : (5001 : ℚ) ≤ (n : ℚ) := by exact_mod_cast (by omega : 5001 ≤ n)
        have d1 : ¬ ((n : ℚ)) ≤ 1000 := by exact_mod_cast (by omega : ¬ n ≤ 1000)
        have d2 : ¬ ((n : ℚ)) ≤ 5000 := by exact_mod_cast (by omega : ¬ n ≤ 5000)
        have d3 : ((n : ℚ)) ≤ 75000 := by exact_mod_cast h
        have d4 : ¬ (75001 : ℚ) ≤ (n : ℚ) := by exact_mod_cast (by omega : ¬ 75001 ≤ n)
        have d5 : ¬ (150001 : ℚ) ≤ (n : ℚ) := by exact_mod_cast (by omega : ¬ 150001 ≤ n)
        have d6 : ¬ (400001 : ℚ) ≤ (n : ℚ) := by exact_mod_cast (by omega : ¬ 400001 ≤ n)
        have d7 : ¬ (600001 : ℚ) ≤ (n : ℚ) := by exact_mod_cast (by omega : ¬ 600001 ≤ n)
        refine ⟨?_, ?_⟩ <;>
          simp +decide [onay_mercii_belirle, onay_ara, onay_limitleri, limit_uyar,
            List.countP_cons, List.countP_nil, c0, d0, d0b, d1, d2, d3, d4, d5, d6, d7]
      · rcases le_or_lt n 150000 with h | h4
        · have d0 : (1001 : ℚ) ≤ (n : ℚ) := by exact_mod_cast (by omega : 1001 ≤ n)
          have d0b : (5001 : ℚ) ≤ (n : ℚ) := by exact_mod_cast (by omega : 5001 ≤ n)
          have d0c : (75001 : ℚ) ≤ (n : ℚ) := by exact_mod_cast (by omega : 75001 ≤ n)
          have d1 : ¬ ((n : ℚ)) ≤ 1000 := by exact_mod_cast (by omega : ¬ n ≤ 1000)
          have d2 : ¬ ((n : ℚ)) ≤ 5000 := by exact_mod_cast (by omega : ¬ n ≤ 5000)
          have d3 : ¬ ((n : ℚ)) ≤ 75000 := by exact_mod_cast (by omega : ¬ n ≤ 75000)
          have d4 : ((n : ℚ)) ≤ 150000 := by exact_mod_cast h
          have d5 : ¬ (150001 : ℚ) ≤ (n : ℚ) := by exact_mod_cast (by omega : ¬ 150001 ≤ n)
          have d6 : ¬ (400001 : ℚ) ≤ (n : ℚ) := by exact_mod_cast (by omega : ¬ 400001 ≤ n)
          have d7 : ¬ (600001 : ℚ) ≤ (n : ℚ) := by exact_mod_cast (by omega : ¬ 600001 ≤ n)
          refine ⟨?_, ?_⟩ <;>
            simp +decide [onay_mercii_belirle, onay_ara, onay_limitleri, limit_uyar,
              List.countP_cons, List.countP_nil, c0, d0, d0b, d0c, d1, d2, d3, d4, d5, d6, d7]
        · rcases le_or_lt n 400000 with h | h5
          · have d0 : (1001 : ℚ) ≤ (n : ℚ) := by exact_mod_cast (by omega : 1001 ≤ n)
            have d0b : (5001 : ℚ) ≤ (n : ℚ) := by exact_mod_cast (by omega : 5001 ≤ n)
            have d0c : (75001 : ℚ) ≤ (n : ℚ) := by exact_mod_cast (by omega : 75001 ≤ n)
            have d0d : (150001 : ℚ) ≤ (n : ℚ) := by exact_mod_cast (by omega : 150001 ≤ n)
            have d1 : ¬ ((n : ℚ)) ≤ 1000 := by exact_mod_cast (by omega : ¬ n ≤ 1000)
            have d2 : ¬ ((n : ℚ)) ≤ 5000 := by exact_mod_cast (by omega : ¬ n ≤ 5000)
            have d3 : ¬ ((n : ℚ)) ≤ 75000 := by exact_mod_cast (by omega : ¬ n ≤ 75000)
            have d4 : ¬ ((n : ℚ)) ≤ 150000 := by exact_mod_cast (by omega : ¬ n ≤ 150000)
            have d5 : ((n : ℚ)) ≤ 400000 := by exact_mod_cast h
            have d6 : ¬ (400001 : ℚ) ≤ (n : ℚ) := by exact_mod_cast (by omega : ¬ 400001 ≤ n)
            have d7 : ¬ (600001 : ℚ) ≤ (n : ℚ) := by exact_mod_cast (by omega : ¬ 600001 ≤ n)
            refine ⟨?_, ?_⟩ <;>
              simp +decide [onay_mercii_belirle, onay_ara, onay_limitleri, limit_uyar,
                List.countP_cons, List.countP_nil, c0, d0, d0b, d0c, d0d, d1, d2, d3, d4,
                d5, d6, d7]
          · rcases le_or_lt n 600000 with h | h6
            · have d0 : (1001 : ℚ) ≤ (n : ℚ) := by exact_mod_cast (by omega : 1001 ≤ n)
              have d0b : (5001 : ℚ) ≤ (n : ℚ) := by exact_mod_cast (by omega : 5001 ≤ n)
              have d0c : (75001 : ℚ) ≤ (n : ℚ) := by exact_mod_cast (by omega : 75001 ≤ n)
              have d0d : (150001 : ℚ) ≤ (n : ℚ) := by
                exact_mod_cast (by omega : 150001 ≤ n)
              have d0e : (400001 : ℚ) ≤ (n : ℚ) := by
                exact_mod_cast (by omega : 400001 ≤ n)
              have d1 : ¬ ((n : ℚ)) ≤ 1000 := by exact_mod_cast (by omega : ¬ n ≤ 1000)
              have d2 : ¬ ((n : ℚ)) ≤ 5000 := by exact_mod_cast (by omega : ¬ n ≤ 5000)
              have d3 : ¬ ((n : ℚ)) ≤ 75000 := by exact_mod_cast (by omega : ¬ n ≤ 75000)
              have d4 : ¬ ((n : ℚ)) ≤ 150000 := by
                exact_mod_cast (by omega : ¬ n ≤ 150000)
              have d5 : ¬ ((n : ℚ)) ≤ 400000 := by
                exact_mod_cast (by omega : ¬ n ≤ 400000)
              have d6 : ((n : ℚ)) ≤ 600000 := by exact_mod_cast h
              have d7 : ¬ (600001 : ℚ) ≤ (n : ℚ) := by
                exact_mod_cast (by omega : ¬ 600001 ≤ n)
              refine ⟨?_, ?_⟩ <;>
                simp +decide [onay_mercii_belirle, onay_ara, onay_limitleri, limit_uyar,
                  List.countP_cons, List.countP_nil, c0, d0, d0b, d0c, d0d, d0e, d1, d2,
                  d3, d4, d5, d6, d7]
            · have d0 : (1001 : ℚ) ≤ (n : ℚ) := by exact_mod_cast (by omega : 1001 ≤ n)
              have d0b : (5001 : ℚ) ≤ (n : ℚ) := by exact_mod_cast (by omega : 5001 ≤ n)
              have d0c : (75001 : ℚ) ≤ (n : ℚ) := by exact_mod_cast (by omega : 75001 ≤ n)
              have d0d : (150001 : ℚ) ≤ (n : ℚ) := by
                exact_mod_cast (by omega : 150001 ≤ n)
              have d0e : (400001 : ℚ) ≤ (n : ℚ) := by
                exact_mod_cast (by omega : 400001 ≤ n)
              have d0f : (600001 : ℚ) ≤ (n : ℚ) := by
                exact_mod_cast (by omega : 600001 ≤ n)
              have d1 : ¬ ((n : ℚ)) ≤ 1000 := by exact_mod_cast (by omega : ¬ n ≤ 1000)
              have d2 : ¬ ((n : ℚ)) ≤ 5000 := by exact_mod_cast (by omega : ¬ n ≤ 5000)
              have d3 : ¬ ((n : ℚ)) ≤ 75000 := by exact_mod_cast (by omega : ¬ n ≤ 75000)
              have d4 : ¬ ((n : ℚ)) ≤ 150000 := by
                exact_mod_cast (by omega : ¬ n ≤ 150000)
              have d5 : ¬ ((n : ℚ)) ≤ 400000 := by
                exact_mod_cast (by omega : ¬ n ≤ 400000)
              have d6 : ¬ ((n : ℚ)) ≤ 600000 := by
                exact_mod_cast (by omega : ¬ n ≤ 600000)
              refine ⟨?_, ?_⟩ <;>
                simp +decide [onay_mercii_belirle, onay_ara, onay_limitleri, limit_uyar,
                  List.countP_cons, List.countP_nil, c0, d0, d0b, d0c, d0d, d0e, d0f,
                  d1, d2, d3, d4, d5, d6]

/-- Claim C2: the numeric-string disambiguation of the value extractor follows
the locale policy of the specification (the code's normalization equals the
policy stated in the spec's words), and the four quoted examples evaluate as
claimed. -/
theorem C2_sayi_politikasi :
    (∀ s : String, parse_sayi s = parse_sayi_spec s) ∧
    parse_sayi "94.629,56" = some ((9462956 : ℚ) / 100) ∧
    parse_sayi "1.234" = some 1234 ∧
    parse_sayi "1.2" = some ((12 : ℚ) / 10) ∧
    parse_sayi "7476000" = some 7476000 := by
  refine ⟨fun s => ?_, ?_, ?_, ?_, ?_⟩
  · simp only [parse_sayi, parse_sayi_spec, sayi_normalize]
    split_ifs <;> rfl
  · rw [parse_sayi, pyFloat_eval _ 9462956 2 (by decide) (by decide) (by decide)]
    norm_num
  · rw [parse_sayi, pyFloat_eval _ 1234 0 (by decide) (by decide) (by decide)]
    norm_num
  · rw [parse_sayi, pyFloat_eval _ 12 1 (by decide) (by decide) (by decide)]
    norm_num
  · rw [parse_sayi, pyFloat_eval _ 7476000 0 (by decide) (by decide) (by decide)]
    norm_num

/-- Claim C3: when the justification text does not contain the
consulting-tender marker, (duration > 6 months OR value > 150,000) together
with a false standard-contract flag forces the fixed `"Minimum Direktör"`
authority, independent of the tier table. -/
theorem C3_matbu_devre (toplam : ℚ) (alim : String) (sure : ℕ)
    (para gerekce : String) (matbu : Bool)
    (h1 : pyInStr "Danışmanlık İhalesi" gerekce = false)
    (h2 : 6 < sure ∨ (150000 : ℚ) < toplam)
    (h3 : matbu = false) :
    (onay_kurgusu_hesapla toplam alim sure para gerekce matbu).onay_mercii =
      "Minimum Direktör" := by
  rcases h2 with h | h <;> simp [onay_kurgusu_hesapla, h1, h3, h]

/-- Witness for C3 at the claim's example: value 200,000, duration 8 months,
standard contract false. -/
theorem C3_matbu_devre_witness :
    pyInStr "Danışmanlık İhalesi" "" = false ∧
    (6 < 8 ∨ (150000 : ℚ) < 200000) ∧
    (onay_kurgusu_hesapla 200000 "Belirsiz" 8 "USD" "" false).onay_mercii =
      "Minimum Direktör" :=
  ⟨by decide, Or.inl (by omega),
    C3_matbu_devre 200000 "Belirsiz" 8 "USD" "" false (by decide) (Or.inl (by omega)) rfl⟩

/-- Shared analysis of the non-override path of `onay_kurgusu_hesapla`: the
used value, annualized flag and authority of rule 3 (and the rule 4
qualifier), for any inputs on which neither override fires. -/
lemma onay_ana_dal (toplam : ℚ) (alim : String) (sure : ℕ)
    (para gerekce : String) (matbu : Bool)
    (h1 : pyInStr "Danışmanlık İhalesi" gerekce = false)
    (h2 : ¬ ((6 < sure ∨ (150000 : ℚ) < toplam) ∧ matbu = false)) :
    (onay_kurgusu_hesapla toplam alim sure para gerekce matbu).kullanilan_deger =
      (if alim = "Sürekli" ∧ 0 < sure ∧ sure < 12 then toplam / (sure : ℚ) * 12
        else toplam) ∧
    (onay_kurgusu_hesapla toplam alim sure para gerekce matbu).yillik_deger =
      decide (alim = "Sürekli" ∧ 0 < sure ∧ sure < 12) ∧
    (onay_kurgusu_hesapla toplam alim sure para gerekce matbu).onay_mercii =
      (if gerekce = "Finansal Limit" then
        onay_mercii_belirle (if alim = "Sürekli" ∧ 0 < sure ∧ sure < 12 then
          toplam / (sure : ℚ) * 12 else toplam) ++ " (minimum)"
      else
        onay_mercii_belirle (if alim = "Sürekli" ∧ 0 < sure ∧ sure < 12 then
          toplam / (sure : ℚ) * 12 else toplam)) := by
  have hg : ((decide (6 < sure) || decide ((150000 : ℚ) < toplam)) && !matbu) = false := by
    cases matbu with
    | true => simp
    | false =>
      have h2' : ¬ (6 < sure ∨ (150000 : ℚ) < toplam) := fun hc => h2 ⟨hc, rfl⟩
      push_neg at h2'
      simp [Nat.not_lt.2 h2'.1, not_lt.2 h2'.2]
  by_cases ha : alim = "Spot"
  · have hs : ¬ (alim = "Sürekli" ∧ 0 < sure ∧ sure < 12) := by
      rintro ⟨hx, -⟩; rw [ha] at hx; exact absurd hx (by decide)
    simp [onay_kurgusu_hesapla, h1, hg, ha, hs]
  · by_cases hb : alim = "Sürekli"
    · by_cases hc : sure < 12 ∧ 0 < sure
      · have hs : alim = "Sürekli" ∧ 0 < sure ∧ sure < 12 := ⟨hb, hc.2, hc.1⟩
        simp [onay_kurgusu_hesapla, h1, hg, ha, hb, hc.1, hc.2, hs]
      · have hs : ¬ (alim = "Sürekli" ∧ 0 < sure ∧ sure < 12) := by
          rintro ⟨-, hx, hy⟩; exact hc ⟨hy, hx⟩
        rcases Nat.lt_or_ge sure 12 with hd | hd
        · have he : ¬ 0 < sure := fun hx => hc ⟨hd, hx⟩
          simp [onay_kurgusu_hesapla, h1, hg, ha, hb, hd, he, hs, Nat.not_le.2 hd]
        · simp [onay_kurgusu_hesapla, h1, hg, ha, hb, Nat.not_lt.2 hd, hd, hs]
    · simp [onay_kurgusu_hesapla, h1, hg, ha, hb,
        show ¬ (alim = "Sürekli" ∧ 0 < sure ∧ sure < 12) from fun hx => hb hx.1]

/-- Claim C4: when neither override fires, the used value is the raw value
except for a Recurring (`"Sürekli"`) purchase with 0 < duration < 12 months,
which is scaled to `value / duration * 12` with the annualized flag set; the
authority is the inclusive tier-table lookup of that value (with the
`"Finansal Limit"` qualifier appended when that justification is given). -/
theorem C4_yillik_deger (toplam : ℚ) (alim : String) (sure : ℕ)
    (para gerekce : String) (matbu : Bool)
    (h1 : pyInStr "Danışmanlık İhalesi" gerekce = false)
    (h2 : ¬ ((6 < sure ∨ (150000 : ℚ) < toplam) ∧ matbu = false)) :
    (onay_kurgusu_hesapla toplam alim sure para gerekce matbu).kullanilan_deger =
      (if alim = "Sürekli" ∧ 0 < sure ∧ sure < 12 then toplam / (sure : ℚ) * 12
        else toplam) ∧
    (onay_kurgusu_hesapla toplam alim sure para gerekce matbu).yillik_deger =
      decide (alim = "Sürekli" ∧ 0 < sure ∧ sure < 12) ∧
    (onay_kurgusu_hesapla toplam alim sure para gerekce matbu).onay_mercii =
      (if gerekce = "Finansal Limit" then
        onay_mercii_belirle (if alim = "Sürekli" ∧ 0 < sure ∧ sure < 12 then
          toplam / (sure : ℚ) * 12 else toplam) ++ " (minimum)"
      else
        onay_mercii_belirle (if alim = "Sürekli" ∧ 0 < sure ∧ sure < 12 then
          toplam / (sure : ℚ) * 12 else toplam)) :=
  onay_ana_dal toplam alim sure para gerekce matbu h1 h2

/-- Witness for C4 at the claim's example: value 10,000, Recurring, duration 6
months annualizes to 20,000, lands in the `[5001,75000]` tier and sets the
annualized flag. -/
theorem C4_yillik_deger_witness :
    (onay_kurgusu_hesapla 10000 "Sürekli" 6 "USD" "" true).kullanilan_deger = 20000 ∧
    (onay_kurgusu_hesapla 10000 "Sürekli" 6 "USD" "" true).yillik_deger = true ∧
    (onay_kurgusu_hesapla 10000 "Sürekli" 6 "USD" "" true).onay_mercii =
      "Müdür / Bölge Müdürü" := by
  have h := C4_yillik_deger 10000 "Sürekli" 6 "USD" "" true (by decide)
    (by rintro ⟨-, hx⟩; exact absurd hx (by decide))
  have hs : ("Sürekli" : String) = "Sürekli" ∧ 0 < 6 ∧ 6 < 12 := ⟨rfl, by omega, by omega⟩
  rw [if_pos hs] at h
  have hv : (10000 : ℚ) / ((6 : ℕ) : ℚ) * 12 = 20000 := by push_cast; norm_num
  rw [hv] at h
  refine ⟨h.1, by rw [h.2.1]; exact decide_eq_true hs, ?_⟩
  rw [h.2.2, if_neg (by decide : ¬ ("" : String) = "Finansal Limit")]
  simp +decide [onay_mercii_belirle, onay_ara, onay_limitleri, limit_uyar]

/-- Claim C10: the minimum-director override is evaluated on the raw,
un-annualized value — for a Recurring purchase with positive duration of at
most 6 months and raw value at most 150,000, the resolver always proceeds to
annualization (the flag is set and the used value is `value / duration * 12`)
and the authority comes from the tier lookup of the annualized value, never
the `"Minimum Direktör"` override, regardless of the annualized magnitude. -/
theorem C10_ham_deger (toplam : ℚ) (sure : ℕ) (para gerekce : String) (matbu : Bool)
    (h1 : pyInStr "Danışmanlık İhalesi" gerekce = false)
    (h2 : 0 < sure) (h3 : sure ≤ 6) (h4 : toplam ≤ 150000) :
    (onay_kurgusu_hesapla toplam "Sürekli" sure para gerekce matbu).onay_mercii ≠
        "Minimum Direktör" ∧
    (onay_kurgusu_hesapla toplam "Sürekli" sure para gerekce matbu).kullanilan_deger =
        toplam / (sure : ℚ) * 12 ∧
    (onay_kurgusu_hesapla toplam "Sürekli" sure para gerekce matbu).yillik_deger =
        true := by
  have h := onay_ana_dal toplam "Sürekli" sure para gerekce matbu h1
    (by rintro ⟨hc | hc, -⟩
        · omega
        · exact absurd hc (not_lt.2 h4))
  have hs : ("Sürekli" : String) = "Sürekli" ∧ 0 < sure ∧ sure < 12 :=
    ⟨rfl, h2, by omega⟩
  rw [if_pos hs] at h
  refine ⟨?_, h.1, by rw [h.2.1]; exact decide_eq_true hs⟩
  rw [h.2.2]
  split_ifs
  · exact mercii_min_dir2 _
  · exact mercii_min_dir1 _

/-- Witness for C10: raw value 100,000 with duration 6 annualizes to 200,000
(which exceeds the 150,000 threshold) while the standard-contract flag is
false, yet the override does not fire and the tier lookup yields the
`[150001,400000]` authority. -/
theorem C10_ham_deger_witness :
    pyInStr "Danışmanlık İhalesi" "" = false ∧ (0 : ℕ) < 6 ∧ (6 : ℕ) ≤ 6 ∧
    (100000 : ℚ) ≤ 150000 ∧
    (150000 : ℚ) < 100000 / ((6 : ℕ) : ℚ) * 12 ∧
    (onay_kurgusu_hesapla 100000 "Sürekli" 6 "USD" "" false).onay_mercii ≠
        "Minimum Direktör" ∧
    (onay_kurgusu_hesapla 100000 "Sürekli" 6 "USD" "" false).kullanilan_deger =
        100000 / ((6 : ℕ) : ℚ) * 12 ∧
    (onay_kurgusu_hesapla 100000 "Sürekli" 6 "USD" "" false).yillik_deger = true := by
  have h := C10_ham_deger 100000 6 "USD" "" false (by decide) (by omega) (by omega)
    (by norm_num)
  exact ⟨by decide, by omega, by omega, by norm_num, by push_cast; norm_num,
    h.1, h.2.1, h.2.2⟩

/-- Claim C5, code evaluation at the failing input: for a text containing the
quantity `"120 ton"` and the unit price `"62.300 RUB/ton"` and no labeled
total, `toplam_alim_degeri_bul` returns the bare unit price 62,300 RUB — the
unit-price pattern (number 7 in the ordered list) matches before the
quantity-times-price patterns (numbers 9 and 10) ever run — and not the
product 120 × 62,300 = 7,476,000 that the claim (and the code's own
quantity-times-price pattern and hard-coded fallback) expects. -/
theorem C5_kod_sonucu :
    toplam_alim_degeri_bul "120 ton 62.300 RUB/ton" = (62300, "RUB") ∧
    pyInL "120 ton".data "120 ton 62.300 RUB/ton".data = true ∧
    pyInL "62.300 RUB/ton".data "120 ton 62.300 RUB/ton".data = true ∧
    (120 : ℚ) * 62300 = 7476000 := by
  have h1 : reSearch kalip1 "120 ton 62.300 RUB/ton".data 2 = none := by decide
  have h2 : reSearch kalip2 "120 ton 62.300 RUB/ton".data 2 = none := by decide
  have h3 : reSearch kalip3 "120 ton 62.300 RUB/ton".data 2 = none := by decide
  have h4 : reSearch kalip4 "120 ton 62.300 RUB/ton".data 2 = none := by decide
  have h5 : reSearch kalip5 "120 ton 62.300 RUB/ton".data 2 = none := by decide
  have h6 : reSearch kalip6 "120 ton 62.300 RUB/ton".data 2 = none := by decide
  have h7 : reSearch kalip7 "120 ton 62.300 RUB/ton".data 2 =
      some [some "62.300".data, some "RUB".data] := by decide
  have hdon : donustur "62.300".data "RUB" = some (62300, "RUB") := by
    unfold donustur
    rw [show sayi_normalize "62.300".data = "62300".data from by decide]
    rw [pyFloat_eval _ 62300 0 (by decide) (by decide) (by decide)]
    norm_num
  have hd : kaliplari_dene deger_kaliplari "120 ton 62.300 RUB/ton".data =
      some (62300, "RUB") := by
    simp only [deger_kaliplari, kaliplari_dene, kalip_dene, h1, h2, h3, h4, h5, h6, h7]
    rw [show para_listesi.contains (⟨"RUB".data⟩ : String) = true from by decide]
    simp only [if_true]
    rw [show pyUpperS (⟨"RUB".data⟩ : String) = "RUB" from by decide]
    exact hdon
  refine ⟨?_, by decide, by decide, by norm_num⟩
  unfold toplam_alim_degeri_bul
  rw [hd]

/-- Claim C8: for every choice of the external TF-IDF/TextRank selectors and
similarity function, an input shorter than 50 characters yields the fixed
insufficient-text sentinel, and the final summary sentence list never exceeds
7 sentences. -/
theorem C8_ozet_siniri (tfidf textrank : String → ℕ → List String)
    (sim : String → String → ℚ) (metin : String) :
    (metin.data.length < 50 →
      extractive_ozet_olustur tfidf textrank sim metin =
        "Özet oluşturmak için yeterli metin bulunamadı.") ∧
    (extractive_final_cumleler tfidf textrank sim metin).length ≤ 7 := by
  constructor
  · intro h
    have hs : (pyStripList metin.data).length < 50 :=
      lt_of_le_of_lt (pyStripList_uzunluk metin.data) h
    unfold extractive_ozet_olustur
    rw [if_pos]
    simp [hs]
  · unfold extractive_final_cumleler
    exact List.length_take_le _ _

/-- Witness for C8: a 10-character input (with trivial strategy parameters)
returns the sentinel and an empty (hence at most 7 element) final list. -/
theorem C8_ozet_siniri_witness :
    ("kısa metin".data.length < 50 ∧
      extractive_ozet_olustur (fun _ _ => []) (fun _ _ => []) (fun _ _ => 0)
        "kısa metin" = "Özet oluşturmak için yeterli metin bulunamadı.") ∧
    (extractive_final_cumleler (fun _ _ => []) (fun _ _ => [])
      (fun _ _ => 0) "kısa metin").length ≤ 7 := by
  have h := C8_ozet_siniri (fun _ _ => []) (fun _ _ => []) (fun _ _ => 0) "kısa metin"
  exact ⟨⟨by decide, h.1 (by decide)⟩, h.2⟩

/-- Claim C9, counterexample: a fragment of exactly 10 characters after
trimming is discarded by `cumle_segmentasyonu` (the code keeps only fragments
strictly longer than 10), contradicting the claim that every trimmed fragment
of 10 or more characters is kept. -/
theorem C9_segment_sinir :
    (pyStripList "abcdefghij".data).length = 10 ∧
    noktalama_bol "abcdefghij".data [] = ["abcdefghij".data] ∧
    cumle_segmentasyonu "abcdefghij" = [] := by decide

/-- Claim C9, amended: the segmentation utility splits on runs of `.`, `!`,
`?` and keeps exactly the trimmed fragments with *more than* 10 characters
(11 or more); fragments of 10 or fewer characters are discarded. -/
theorem C9_segment_filtre (metin : String) :
    cumle_segmentasyonu metin =
      (((noktalama_bol metin.data []).map pyStripList).filter
        (fun l => decide (10 < l.length))).map (fun l => (⟨l⟩ : String)) := by
  unfold cumle_segmentasyonu
  congr 1
  apply List.filter_congr
  intro l _
  cases l with
  | nil => simp
  | cons c rest => simp

/-- Correctness of the prefix test against `List.IsPrefix`. -/
lemma bastaEsle_dogru (n : List Char) : ∀ l, bastaEsle n l = true ↔ n <+: l := by
  induction n with
  | nil => intro l; simp [bastaEsle, List.nil_prefix]
  | cons a as ih =>
    intro l
    cases l with
    | nil => simp [bastaEsle]
    | cons b bs =>
      simp [bastaEsle, List.cons_prefix_cons, ih bs, Bool.and_eq_true, beq_iff_eq]

/-- Correctness of the Python substring model against `List.IsInfix`. -/
lemma pyInL_dogru (n : List Char) : ∀ l, pyInL n l = true ↔ n <:+: l := by
  intro l
  induction l with
  | nil => simp [pyInL, List.infix_nil, List.isEmpty_iff]
  | cons b bs ih =>
    simp [pyInL, Bool.or_eq_true, bastaEsle_dogru, ih, List.infix_cons_iff]

/-- `flatMap` preserves infixes. -/
lemma infix_flatMap {n l : List Char} (f : Char → List Char) (h : n <:+: l) :
    n.flatMap f <:+: l.flatMap f := by
  obtain ⟨s, t, rfl⟩ := h
  exact ⟨s.flatMap f, t.flatMap f, by simp⟩

/-- Lowering is the identity on strings of lower-fixed characters. -/
lemma flatMap_sabit : ∀ {n : List Char}, (∀ c ∈ n, pyLowerChar c = [c]) →
    n.flatMap pyLowerChar = n := by
  intro n
  induction n with
  | nil => intro _; rfl
  | cons a as ih =>
    intro h
    simp only [List.flatMap_cons, h a (by simp), ih (fun c hc => h c (by simp [hc]))]
    rfl

/-- An infix whose first character falsifies the predicate survives
`dropWhile`. -/
lemma infix_dropWhile_bas {pr : Char → Bool} {n : List Char} (c0 : Char)
    (cs : List Char) (hn : n = c0 :: cs) (hc : pr c0 = false) :
    ∀ l, n <:+: l → n <:+: l.dropWhile pr := by
  intro l
  induction l with
  | nil =>
    intro h
    rw [List.infix_nil] at h
    rw [h] at hn
    exact absurd hn (by simp)
  | cons a as ih =>
    intro h
    by_cases ha : pr a
    · rw [List.dropWhile_cons, if_pos ha]
      apply ih
      rcases List.infix_cons_iff.1 h with hp | hi
      · exfalso
        subst hn
        rcases List.cons_prefix_cons.1 hp with ⟨rfl, -⟩
        rw [ha] at hc
        exact absurd hc (by simp)
      · exact hi
    · rw [List.dropWhile_cons, if_neg ha]
      exact h

/-- An infix with non-whitespace first and last characters survives
stripping. -/
lemma infix_pyStrip {n l : List Char}
    (hb : ∃ c cs, n = c :: cs ∧ boslukMu c = false)
    (hs : ∃ c cs, n.reverse = c :: cs ∧ boslukMu c = false)
    (h : n <:+: l) : n <:+: pyStripList l := by
  obtain ⟨c0, cs, hn, hc⟩ := hb
  obtain ⟨d0, ds, hm, hd⟩ := hs
  unfold pyStripList
  have h1 : n <:+: l.dropWhile boslukMu := infix_dropWhile_bas c0 cs hn hc l h
  have h2 : n.reverse <:+: (l.dropWhile boslukMu).reverse := List.reverse_infix.2 h1
  have h3 : n.reverse <:+: ((l.dropWhile boslukMu).reverse).dropWhile boslukMu :=
    infix_dropWhile_bas d0 ds hm hd _ h2
  have h4 := List.reverse_infix.2 h3
  rwa [List.reverse_reverse] at h4

/-- Decidable test that a character list starts with a non-whitespace
character. -/
def basBosDegil (l : List Char) : Bool :=
  match l with
  | [] => false
  | c :: _ => !boslukMu c

/-- Every negation phrase is non-empty, starts and ends with non-whitespace,
and consists of lower-fixed characters. -/
lemma olumsuz_sabit :
    ∀ p ∈ olumsuzluk_ifadeleri,
      basBosDegil p.data = true ∧ basBosDegil p.data.reverse = true ∧
      p.data.all (fun c => pyLowerChar c == [c]) = true := by decide

/-- Unfolding of `basBosDegil` into existential form. -/
lemma basBosDegil_ayristir {l : List Char} (h : basBosDegil l = true) :
    ∃ c cs, l = c :: cs ∧ boslukMu c = false := by
  cases l with
  | nil => exact absurd h (by simp [basBosDegil])
  | cons c cs =>
    refine ⟨c, cs, rfl, ?_⟩
    simp [basBosDegil] at h
    simp [h]

/-- A raw line containing a negation phrase still contains it after the
detector's lower-and-strip normalization, so the negation check fires. -/
lemma olumsuz_iceren_normalize {p satir : String} (hp : p ∈ olumsuzluk_ifadeleri)
    (hiceren : p.data <:+: satir.data) :
    olumsuzluk_var (pyStripS (pyLowerS satir)) = true := by
  obtain ⟨hb, hr, hfixb⟩ := olumsuz_sabit p hp
  have hfix : ∀ c ∈ p.data, pyLowerChar c = [c] := by
    intro c hc
    have := List.all_eq_true.1 hfixb c hc
    exact beq_iff_eq.1 this
  have h1 : p.data <:+: satir.data.flatMap pyLowerChar := by
    have := infix_flatMap pyLowerChar hiceren
    rwa [flatMap_sabit hfix] at this
  have h2 : p.data <:+: pyStripList (satir.data.flatMap pyLowerChar) :=
    infix_pyStrip (basBosDegil_ayristir hb) (basBosDegil_ayristir hr) h1
  have h3 : pyInStr p (pyStripS (pyLowerS satir)) = true := (pyInL_dogru _ _).2 h2
  exact List.any_eq_true.2 ⟨p, hp, h3⟩

/-- A produced map entry carries its originating 1-based line number both as
its stored `satir_no` and in its dictionary key. -/
lemma isle_numara {satirlar : List String} {i : ℕ} {satir : String} {y : CumleKayit}
    (h : risk_satir_isle satirlar i satir = some y) :
    y.satir_no = i ∧ y.anahtar.2 = i := by
  unfold risk_satir_isle at h
  dsimp only at h
  split_ifs at h
  rw [Option.some_inj] at h
  subst h
  exact ⟨rfl, rfl⟩

/-- The dictionary fold appends one entry per matching line: since every
stored key carries its line number and line numbers strictly increase, the
key-extension branch of `kayit_birlestir` never fires. -/
lemma risk_dongu_birikim (satirlar : List String) :
    ∀ (rest : List String) (i : ℕ) (m : List CumleKayit),
      (∀ e ∈ m, e.anahtar.2 < i) →
      risk_dongu satirlar i rest m = m ++ risk_liste satirlar i rest := by
  intro rest
  induction rest with
  | nil => intro i m _; simp [risk_dongu, risk_liste]
  | cons satir rest ih =>
    intro i m hm
    simp only [risk_dongu, risk_liste]
    cases hi : risk_satir_isle satirlar i satir with
    | none =>
      rw [ih (i + 1) m (fun e he => Nat.lt_succ_of_lt (hm e he))]
      simp
    | some y =>
      have hy := (isle_numara hi).2
      have hne : kayit_birlestir m y = m ++ [y] := by
        unfold kayit_birlestir
        rw [if_neg]
        intro hc
        obtain ⟨e, he, hee⟩ := List.any_eq_true.1 hc
        have : e.anahtar = y.anahtar := by simpa using hee
        have h1 := hm e he
        rw [this, hy] at h1
        omega
      dsimp only
      rw [hne, ih (i + 1) (m ++ [y]) ?_]
      · simp [Option.toList]
      · intro e he
        rcases List.mem_append.1 he with h | h
        · exact Nat.lt_succ_of_lt (hm e h)
        · rw [List.mem_singleton.1 h, hy]
          omega

/-- `risk_analizi_yap` is the per-line entry list mapped through the finding
builder. -/
lemma risk_analizi_acilim (metin : String) :
    risk_analizi_yap metin =
      (risk_liste (satirlara_bol metin) 1 (satirlara_bol metin)).map tespit_olustur := by
  unfold risk_analizi_yap
  dsimp only
  rw [risk_dongu_birikim _ _ 1 [] (by simp)]
  simp

/-- Entries produced from the tail of the line list have line numbers at
least the starting index. -/
lemma risk_liste_alt_sinir (satirlar : List String) :
    ∀ (rest : List String) (i : ℕ) (e : CumleKayit),
      e ∈ risk_liste satirlar i rest → i ≤ e.satir_no := by
  intro rest
  induction rest with
  | nil => intro i e h; exact absurd h (by simp [risk_liste])
  | cons satir rest ih =>
    intro i e h
    simp only [risk_liste] at h
    rcases List.mem_append.1 h with h | h
    · cases hi : risk_satir_isle satirlar i satir with
      | none => rw [hi] at h; exact absurd h (by simp)
      | some y =>
        rw [hi] at h
        simp only [Option.toList, List.mem_singleton] at h
        rw [h, (isle_numara hi).1]
    · exact Nat.le_of_succ_le (ih (i + 1) e h)

/-- Filtering the entry list by a line number isolates exactly the entry (if
any) produced by that line. -/
lemma risk_liste_filtre (satirlar : List String) :
    ∀ (rest : List String) (i k : ℕ),
      (risk_liste satirlar i rest).filter (fun e => e.satir_no == i + k) =
        ((rest.get? k).bind (fun satir => risk_satir_isle satirlar (i + k) satir)).toList := by
  intro rest
  induction rest with
  | nil => intro i k; simp [risk_liste]
  | cons satir rest ih =>
    intro i k
    simp only [risk_liste, List.filter_append]
    cases k with
    | zero =>
      have htail :
          (risk_liste satirlar (i + 1) rest).filter (fun e => e.satir_no == i + 0) = [] := by
        apply List.filter_eq_nil_iff.2
        intro e he
        have := risk_liste_alt_sinir satirlar rest (i + 1) e he
        simp only [beq_iff_eq]
        omega
      rw [htail]
      cases hi : risk_satir_isle satirlar i satir with
      | none => simp [hi]
      | some y =>
        have hy := (isle_numara hi).1
        simp [Option.toList, List.filter_cons, hy, hi]
    | succ k' =>
      have hbas :
          ((risk_satir_isle satirlar i satir).toList).filter
            (fun e => e.satir_no == i + (k' + 1)) = [] := by
        apply List.filter_eq_nil_iff.2
        intro e he
        cases hi : risk_satir_isle satirlar i satir with
        | none => rw [hi] at he; exact absurd he (by simp)
        | some y =>
          rw [hi] at he
          simp only [Option.toList, List.mem_singleton] at he
          rw [he, (isle_numara hi).1]
          simp only [beq_iff_eq]
          omega
      rw [hbas, List.nil_append]
      have harit : i + (k' + 1) = (i + 1) + k' := by omega
      rw [harit, ih (i + 1) k']
      simp

/-- The finding builder preserves the stored line number. -/
lemma tespit_numara (e : CumleKayit) : (tespit_olustur e).satir_no = e.satir_no := by
  unfold tespit_olustur
  dsimp only
  split_ifs <;> rfl

/-- Claim C6: an input line that contains any phrase of the fixed negation
list produces no finding — no element of the detector's output carries that
line's number, even if the line also contains risk phrases. -/
theorem C6_olumsuzluk (metin : String) (j : ℕ) (satir p : String)
    (hp : p ∈ olumsuzluk_ifadeleri)
    (hline : (satirlara_bol metin).get? j = some satir)
    (hiceren : p.data <:+: satir.data) :
    ∀ t ∈ risk_analizi_yap metin, t.satir_no ≠ j + 1 := by
  intro t ht hts
  have hneg := olumsuz_iceren_normalize hp hiceren
  have hisle : risk_satir_isle (satirlara_bol metin) (j + 1) satir = none := by
    unfold risk_satir_isle
    rw [if_pos hneg]
  rw [risk_analizi_acilim] at ht
  obtain ⟨e, he, rfl⟩ := List.mem_map.1 ht
  rw [tespit_numara] at hts
  have hmem : e ∈ (risk_liste (satirlara_bol metin) 1 (satirlara_bol metin)).filter
      (fun x => x.satir_no == 1 + j) := by
    apply List.mem_filter.2
    refine ⟨he, ?_⟩
    simp only [beq_iff_eq]
    omega
  rw [risk_liste_filtre] at hmem
  rw [hline] at hmem
  simp only [Option.some_bind] at hmem
  rw [show 1 + j = j + 1 from by omega, hisle] at hmem
  exact absurd hmem (by simp)

/-- Witness for C6 at the claim's example line, which contains the negation
phrase `"tespit edilmemiştir"`: the detector returns no findings at all. -/
theorem C6_olumsuzluk_witness :
    "tespit edilmemiştir" ∈ olumsuzluk_ifadeleri ∧
    (satirlara_bol "Fiyat manipülasyonu tespit edilmemiştir.").get? 0 =
      some "Fiyat manipülasyonu tespit edilmemiştir." ∧
    risk_analizi_yap "Fiyat manipülasyonu tespit edilmemiştir." = [] ∧
    (∀ t ∈ risk_analizi_yap "Fiyat manipülasyonu tespit edilmemiştir.",
      t.satir_no ≠ 0 + 1) := by
  refine ⟨by decide, by decide, ?_, ?_⟩
  · rw [risk_analizi_acilim]
    rw [show risk_liste (satirlara_bol "Fiyat manipülasyonu tespit edilmemiştir.") 1
        (satirlara_bol "Fiyat manipülasyonu tespit edilmemiştir.") = [] from by decide]
    rfl
  · exact C6_olumsuzluk "Fiyat manipülasyonu tespit edilmemiştir." 0
      "Fiyat manipülasyonu tespit edilmemiştir." "tespit edilmemiştir"
      (by decide) (by decide) (by decide)

/-- `grup_ekle` preserves the existing category keys. -/
lemma grup_ekle_fst_koru {acc : List (String × List String)} {x : String}
    (kat kel : String) (h : x ∈ acc.map Prod.fst) :
    x ∈ (grup_ekle acc kat kel).map Prod.fst := by
  unfold grup_ekle
  by_cases hc : acc.any (fun e => e.1 = kat)
  · rw [if_pos hc, List.map_map]
    obtain ⟨e, he, rfl⟩ := List.mem_map.1 h
    apply List.mem_map.2
    refine ⟨e, he, ?_⟩
    simp only [Function.comp]
    split_ifs <;> rfl
  · rw [if_neg hc, List.map_append]
    exact List.mem_append_left _ h

/-- `grup_ekle` records the inserted category key. -/
lemma grup_ekle_fst_kat (acc : List (String × List String)) (kat kel : String) :
    kat ∈ (grup_ekle acc kat kel).map Prod.fst := by
  unfold grup_ekle
  by_cases hc : acc.any (fun e => e.1 = kat)
  · rw [if_pos hc, List.map_map]
    obtain ⟨e, he, hee⟩ := List.any_eq_true.1 hc
    have he1 : e.1 = kat := by simpa using hee
    apply List.mem_map.2
    refine ⟨e, he, ?_⟩
    simp only [Function.comp]
    rw [if_pos he1]
    exact he1
  · rw [if_neg hc, List.map_append]
    simp

/-- Every category appearing in the pair list appears among the keys of the
grouped result. -/
lemma grupla_fst_mem :
    ∀ (l : List (String × String)) (acc : List (String × List String))
      (c k : String), ((c, k) ∈ l ∨ c ∈ acc.map Prod.fst) →
      c ∈ (kategori_grupla l acc).map Prod.fst := by
  intro l
  induction l with
  | nil =>
    intro acc c k h
    rcases h with h | h
    · exact absurd h (by simp)
    · simpa [kategori_grupla] using h
  | cons bas rest ih =>
    intro acc c k h
    obtain ⟨kat, kel⟩ := bas
    simp only [kategori_grupla]
    rcases h with h | h
    · rcases List.mem_cons.1 h with h | h
      · obtain ⟨rfl, rfl⟩ := Prod.mk.inj h
        exact ih _ c k (Or.inr (grup_ekle_fst_kat acc c k))
      · exact ih _ c k (Or.inl h)
    · exact ih _ c k (Or.inr (grup_ekle_fst_koru kat kel h))

/-- `grup_ekle` preserves the phrases already grouped. -/
lemma grup_ekle_kel_koru {acc : List (String × List String)} {x : String}
    (kat kel : String) (h : x ∈ (acc.map Prod.snd).flatten) :
    x ∈ ((grup_ekle acc kat kel).map Prod.snd).flatten := by
  obtain ⟨s, hs, hx⟩ := List.mem_flatten.1 h
  obtain ⟨e, he, rfl⟩ := List.mem_map.1 hs
  unfold grup_ekle
  by_cases hc : acc.any (fun e => e.1 = kat)
  · rw [if_pos hc, List.map_map]
    apply List.mem_flatten.2
    refine ⟨_, List.mem_map_of_mem _ he, ?_⟩
    simp only [Function.comp]
    split_ifs <;> simp [hx]
  · rw [if_neg hc, List.map_append]
    apply List.mem_flatten.2
    exact ⟨e.2, List.mem_append_left _ (List.mem_map.2 ⟨e, he, rfl⟩), hx⟩

/-- `grup_ekle` records the inserted phrase. -/
lemma grup_ekle_kel_yeni (acc : List (String × List String)) (kat kel : String) :
    kel ∈ ((grup_ekle acc kat kel).map Prod.snd).flatten := by
  unfold grup_ekle
  by_cases hc : acc.any (fun e => e.1 = kat)
  · rw [if_pos hc, List.map_map]
    obtain ⟨e, he, hee⟩ := List.any_eq_true.1 hc
    have he1 : e.1 = kat := by simpa using hee
    apply List.mem_flatten.2
    refine ⟨_, List.mem_map_of_mem _ he, ?_⟩
    simp only [Function.comp]
    rw [if_pos he1]
    simp
  · rw [if_neg hc, List.map_append]
    apply List.mem_flatten.2
    refine ⟨[kel], List.mem_append_right _ (by simp), by simp⟩

/-- Every phrase of the pair list appears in the flattened grouped phrase
lists. -/
lemma grupla_kel_mem :
    ∀ (l : List (String × String)) (acc : List (String × List String))
      (c k : String), ((c, k) ∈ l ∨ k ∈ (acc.map Prod.snd).flatten) →
      k ∈ ((kategori_grupla l acc).map Prod.snd).flatten := by
  intro l
  induction l with
  | nil =>
    intro acc c k h
    rcases h with h | h
    · exact absurd h (by simp)
    · simpa [kategori_grupla] using h
  | cons bas rest ih =>
    intro acc c k h
    obtain ⟨kat, kel⟩ := bas
    simp only [kategori_grupla]
    rcases h with h | h
    · rcases List.mem_cons.1 h with h | h
      · obtain ⟨rfl, rfl⟩ := Prod.mk.inj h
        exact ih _ c k (Or.inr (grup_ekle_kel_yeni acc c k))
      · exact ih _ c k (Or.inl h)
    · exact ih _ c k (Or.inr (grup_ekle_kel_koru kat kel h))

/-- Claim C7: two risk phrases of different categories matched on the same
line (hence under the same `(sentence, line)` dedup key) yield exactly one
finding; its matched-phrase list (the flattened category groups rendered into
the explanation) contains both phrases, its category field is the
comma-joined category list, and its severity is forced to 3 (High,
`"Yüksek"`) in the explanation. -/
theorem C7_cumle_birlestir (metin : String) (j : ℕ) (satir c1 k1 c2 k2 : String)
    (hline : (satirlara_bol metin).get? j = some satir)
    (hneg : olumsuzluk_var (pyStripS (pyLowerS satir)) = false)
    (h1 : (c1, k1) ∈ satir_tespitleri (pyStripS (pyLowerS satir)))
    (h2 : (c2, k2) ∈ satir_tespitleri (pyStripS (pyLowerS satir)))
    (hfark : c1 ≠ c2) :
    ∃ t : RiskTespiti,
      (risk_analizi_yap metin).filter (fun x => x.satir_no == j + 1) = [t] ∧
      t.satir_no = j + 1 ∧
      t.kategori = joinSep ", "
        ((kategori_grupla (satir_tespitleri (pyStripS (pyLowerS satir))) []).map
          Prod.fst) ∧
      k1 ∈ (((kategori_grupla (satir_tespitleri (pyStripS (pyLowerS satir))) []).map
        Prod.snd).flatten) ∧
      k2 ∈ (((kategori_grupla (satir_tespitleri (pyStripS (pyLowerS satir))) []).map
        Prod.snd).flatten) ∧
      t.aciklama = aciklama_olustur
        (sebep_oneriler_olustur (joinSep ", "
          ((kategori_grupla (satir_tespitleri (pyStripS (pyLowerS satir))) []).map
            Prod.fst))).1
        (((kategori_grupla (satir_tespitleri (pyStripS (pyLowerS satir))) []).map
          Prod.snd).flatten) 3 "Yüksek"
        (sebep_oneriler_olustur (joinSep ", "
          ((kategori_grupla (satir_tespitleri (pyStripS (pyLowerS satir))) []).map
            Prod.fst))).2 := by
  have satirlar := satirlara_bol metin
  have hbos : (satir_tespitleri (pyStripS (pyLowerS satir))).isEmpty = false := by
    rcases he : satir_tespitleri (pyStripS (pyLowerS satir)) with _ | ⟨b, rest⟩
    · rw [he] at h1; exact absurd h1 (by simp)
    · rfl
  have hisle : risk_satir_isle (satirlara_bol metin) (j + 1) satir =
      some ⟨(tam_cumle_al (satirlara_bol metin) j, j + 1),
        satir_tespitleri (pyStripS (pyLowerS satir)),
        tam_cumle_al (satirlara_bol metin) j, j + 1⟩ := by
    unfold risk_satir_isle
    dsimp only
    rw [hneg, hbos]
    simp
  have hfilt : (risk_analizi_yap metin).filter (fun x => x.satir_no == j + 1) =
      [tespit_olustur ⟨(tam_cumle_al (satirlara_bol metin) j, j + 1),
        satir_tespitleri (pyStripS (pyLowerS satir)),
        tam_cumle_al (satirlara_bol metin) j, j + 1⟩] := by
    rw [risk_analizi_acilim, List.filter_map]
    have hpred : (risk_liste (satirlara_bol metin) 1 (satirlara_bol metin)).filter
        ((fun x : RiskTespiti => x.satir_no == j + 1) ∘ tespit_olustur) =
        (risk_liste (satirlara_bol metin) 1 (satirlara_bol metin)).filter
        (fun e : CumleKayit => e.satir_no == 1 + j) := by
      apply List.filter_congr
      intro e _
      simp only [Function.comp, tespit_numara]
      rw [Nat.add_comm 1 j]
    rw [hpred, risk_liste_filtre, hline]
    simp only [Option.some_bind]
    rw [show 1 + j = j + 1 from by omega, hisle]
    rfl
  have hlen : ¬ ((kategori_grupla (satir_tespitleri (pyStripS (pyLowerS satir))) []).map
      Prod.fst).length = 1 := by
    intro hl
    obtain ⟨a, ha⟩ := List.length_eq_one.1 hl
    have m1 : c1 ∈ (kategori_grupla (satir_tespitleri (pyStripS (pyLowerS satir))) []).map
        Prod.fst := grupla_fst_mem _ _ _ _ (Or.inl h1)
    have m2 : c2 ∈ (kategori_grupla (satir_tespitleri (pyStripS (pyLowerS satir))) []).map
        Prod.fst := grupla_fst_mem _ _ _ _ (Or.inl h2)
    rw [ha] at m1 m2
    exact hfark ((List.mem_singleton.1 m1).trans (List.mem_singleton.1 m2).symm)
  refine ⟨_, hfilt, ?_, ?_, ?_, ?_, ?_⟩
  · rw [tespit_numara]
  · unfold tespit_olustur
    dsimp only
    rw [if_neg hlen]
  · exact grupla_kel_mem _ _ c1 k1 (Or.inl h1)
  · exact grupla_kel_mem _ _ c2 k2 (Or.inl h2)
  · unfold tespit_olustur
    dsimp only
    rw [if_neg hlen]

/-- Witness for C7 on a line matching the commercial phrase `"ambargo"` and
the ethical phrase `"rüşvet"`: exactly one finding, with the comma-joined
category field. -/
theorem C7_cumle_birlestir_witness :
    ∃ t : RiskTespiti,
      (risk_analizi_yap "rüşvet ve ambargo.").filter (fun x => x.satir_no == 0 + 1) =
        [t] ∧
      t.kategori = "Ticari Risk, Etik Risk" := by
  obtain ⟨t, hf, -, hk, -, -, -⟩ := C7_cumle_birlestir "rüşvet ve ambargo." 0
    "rüşvet ve ambargo." "Ticari Risk" "ambargo" "Etik Risk" "rüşvet"
    (by decide) (by decide) (by decide) (by decide) (by decide)
  refine ⟨t, hf, ?_⟩
  rw [hk]
  decide
